import Mathlib

/-!
# Verification of the `impact_engine_evaluate` EVALUATE stage

Shallow embedding of the evaluation routing and scoring engine of the
`tools-impact-engine-evaluate` repository, together with proofs of the
testable properties stated in its specification.

Embedding conventions:

* Python numeric values (`float` / `int`) are modelled as exact rationals
  (`ℚ`) resp. integers; IEEE-754 rounding is idealised away.  All numeric
  literals appearing in the claims (0.85, 1.0, ...) are exactly
  representable as rationals, and none of the verified properties depend
  on rounding behaviour.
* Python strings are modelled as Lean `String` / `List Char`, restricted to
  the ASCII fragment actually exercised by the code under verification
  (whitespace classes, `\d`, `\S` are the ASCII ones).
* Fallible Python code (raising exceptions) is modelled with `Except PyErr`;
  an uncaught exception is an `Except.error`.
* The job directory is modelled as a partial map from file names to file
  data; result files written by the stage are stored structurally (a
  constructor per serialised record) because no modelled code path ever
  reads a result file back.
* Process-external effects (the LLM backend completion call, the package's
  YAML prompt-template files and knowledge directories, the wall clock) are
  parameters of the model, universally quantified in every theorem, so the
  theorems hold for every possible behaviour of those collaborators.
-/

set_option maxHeartbeats 1000000
set_option maxRecDepth 4096

/- Batteries marks the `Rat` field operations `@[irreducible]`, which blocks
`decide` on concrete rational computations.  The kernel ignores
reducibility attributes, so restoring the default status only affects
elaboration. -/
attribute [local semireducible] Rat.add Rat.mul Rat.sub Rat.inv Rat.ofScientific

namespace ImpactEngine

/-! ## Python string/number primitives

Models of the CPython behaviours the engine relies on: the `re` module's
ASCII character classes, `str.strip`, and `float()` / `int()` conversion
of strings.  String conversion is modelled on the fragment without
`inf` / `nan` literals and without digit-group underscores, none of which
can reach the modelled code paths.
-/

/-- ASCII fragment of the regex class `\s` (and of `str.strip`'s default
whitespace set): space, tab, newline, carriage return, form feed,
vertical tab. -/
def isPySpace (c : Char) : Bool :=
  c = ' ' || c = '\t' || c = '\n' || c = '\r' || c = '\x0c' || c = '\x0b'

/-- ASCII fragment of the regex class `\d`. -/
def isPyDigit (c : Char) : Bool :=
  '0' ≤ c && c ≤ '9'

/-- The regex character class `[\d.]` used for `SCORE:` and `OVERALL:`
tokens. -/
def isScoreChar (c : Char) : Bool :=
  isPyDigit c || c = '.'

/-- `str.strip()` on the ASCII whitespace fragment. -/
def pyStrip (s : List Char) : List Char :=
  ((s.dropWhile isPySpace).reverse.dropWhile isPySpace).reverse

/-- Digit value of an ASCII digit character. -/
def digitVal (c : Char) : Nat := c.toNat - '0'.toNat

/-- Natural number denoted by a list of ASCII digits (empty list ↦ 0). -/
def digitsToNat (ds : List Char) : Nat :=
  ds.foldl (fun acc c => acc * 10 + digitVal c) 0

/-- `float(s)` on a string: optional sign, integer digits, optional
fractional part, optional exponent; at least one digit overall is
required.  Returns `none` where CPython raises `ValueError`. -/
def pyFloatOfChars (s : List Char) : Option ℚ :=
  let s := pyStrip s
  let (sign, s) :=
    match s with
    | '-' :: rest => ((-1 : ℚ), rest)
    | '+' :: rest => ((1 : ℚ), rest)
    | _ => ((1 : ℚ), s)
  let intPart := s.takeWhile isPyDigit
  let s1 := s.drop intPart.length
  let (fracPart, s2) :=
    match s1 with
    | '.' :: rest => (rest.takeWhile isPyDigit, (rest.drop ((rest.takeWhile isPyDigit).length)))
    | _ => (([] : List Char), s1)
  if intPart.length + fracPart.length = 0 then none
  else
    let mantissa : ℚ :=
      (digitsToNat intPart : ℚ) + (digitsToNat fracPart : ℚ) / ((10 : ℚ) ^ fracPart.length)
    match s2 with
    | [] => some (sign * mantissa)
    | e :: rest =>
      if e = 'e' ∨ e = 'E' then
        let (esign, rest) :=
          match rest with
          | '-' :: r => ((-1 : ℤ), r)
          | '+' :: r => ((1 : ℤ), r)
          | _ => ((1 : ℤ), rest)
        let eDigits := rest.takeWhile isPyDigit
        if eDigits.length = 0 ∨ (rest.drop eDigits.length).length ≠ 0 then none
        else some (sign * mantissa * (10 : ℚ) ^ (esign * (digitsToNat eDigits : ℤ)))
      else none

/-- `float(s)` on a Lean `String`. -/
def pyFloatOfString (s : String) : Option ℚ := pyFloatOfChars s.data

/-- `int(s)` on a string: optional sign and at least one digit. -/
def pyIntOfChars (s : List Char) : Option ℤ :=
  let s := pyStrip s
  let (sign, s) :=
    match s with
    | '-' :: rest => ((-1 : ℤ), rest)
    | '+' :: rest => ((1 : ℤ), rest)
    | _ => ((1 : ℤ), s)
  if s.length = 0 ∨ ¬ s.all isPyDigit then none
  else some (sign * (digitsToNat s : ℤ))

/-- Python's binary `min` (value semantics). -/
def pyMin (a b : ℚ) : ℚ := if a ≤ b then a else b

/-- Python's binary `max` (value semantics). -/
def pyMax (a b : ℚ) : ℚ := if b ≤ a then a else b

/-- `max(0.0, min(1.0, x))` — the clamp applied to every parsed score. -/
def clamp01 (q : ℚ) : ℚ := pyMax 0 (pyMin 1 q)

theorem clamp01_nonneg (q : ℚ) : 0 ≤ clamp01 q := by
  unfold clamp01 pyMax pyMin
  split_ifs <;> linarith

theorem clamp01_le_one (q : ℚ) : clamp01 q ≤ 1 := by
  unfold clamp01 pyMax pyMin
  split_ifs <;> linarith

/-! ## JSON values and `json.loads`

Model of the Python `json` module as used by the engine: `json.loads` on
strict JSON (objects, arrays, strings with the common escapes, numbers,
booleans, `null`).  Numbers are exact rationals.  Python builds objects as
dicts, so a duplicate key replaces the earlier value in place; the object
parser mirrors that with `setKey`, hence modelled objects always have
distinct keys.  The non-strict CPython extensions `NaN` / `Infinity` are
outside the modelled fragment (they cannot be expressed in `ℚ` and never
occur in the verified flows).
-/

/-- A parsed JSON value (the result of `json.loads`). -/
inductive JValue where
  | null : JValue
  | bool (b : Bool) : JValue
  | num (q : ℚ) : JValue
  | str (s : String) : JValue
  | arr (l : List JValue) : JValue
  | obj (l : List (String × JValue)) : JValue
  deriving Repr

/-- Insert-or-replace in an association list, preserving the position of an
existing key — Python `dict.__setitem__` semantics. -/
def setKey (l : List (String × JValue)) (k : String) (v : JValue) :
    List (String × JValue) :=
  match l with
  | [] => [(k, v)]
  | (k', v') :: rest => if k' = k then (k', v) :: rest else (k', v') :: setKey rest k v

/-- Key lookup in a modelled JSON object (`dict.__getitem__` /
`dict.get`). -/
def jLookup (l : List (String × JValue)) (k : String) : Option JValue :=
  match l with
  | [] => none
  | (k', v) :: rest => if k' = k then some v else jLookup rest k

/-- `dict.get(k, default)`. -/
def jGetD (l : List (String × JValue)) (k : String) (d : JValue) : JValue :=
  (jLookup l k).getD d

/-- JSON whitespace (`json.decoder` skips space, tab, newline, CR). -/
def isJsonWs (c : Char) : Bool :=
  c = ' ' || c = '\t' || c = '\n' || c = '\r'

/-- Hexadecimal digit value for `\uXXXX` escapes. -/
def hexVal (c : Char) : Option Nat :=
  if '0' ≤ c ∧ c ≤ '9' then some (c.toNat - '0'.toNat)
  else if 'a' ≤ c ∧ c ≤ 'f' then some (c.toNat - 'a'.toNat + 10)
  else if 'A' ≤ c ∧ c ≤ 'F' then some (c.toNat - 'A'.toNat + 10)
  else none

/-- Parse the body of a JSON string literal (after the opening quote),
returning the decoded characters and the remaining input after the
closing quote.  Handles the standard single-character escapes and BMP
`\uXXXX` escapes (surrogate pairs are outside the modelled fragment). -/
def parseJsonStringBody (fuel : Nat) (cs : List Char) :
    Option (List Char × List Char) :=
  match fuel with
  | 0 => none
  | fuel + 1 =>
    match cs with
    | [] => none
    | '"' :: rest => some ([], rest)
    | '\\' :: e :: rest =>
      let decoded : Option (Char × List Char) :=
        match e with
        | '"' => some ('"', rest)
        | '\\' => some ('\\', rest)
        | '/' => some ('/', rest)
        | 'b' => some ('\x08', rest)
        | 'f' => some ('\x0c', rest)
        | 'n' => some ('\n', rest)
        | 'r' => some ('\r', rest)
        | 't' => some ('\t', rest)
        | 'u' =>
          match rest with
          | h1 :: h2 :: h3 :: h4 :: rest' =>
            match hexVal h1, hexVal h2, hexVal h3, hexVal h4 with
            | some a, some b, some c, some d =>
              let n := ((a * 16 + b) * 16 + c) * 16 + d
              if n.isValidChar then some (Char.ofNat n, rest') else none
            | _, _, _, _ => none
          | _ => none
        | _ => none
      match decoded with
      | none => none
      | some (c, rest') =>
        match parseJsonStringBody fuel rest' with
        | none => none
        | some (body, rem) => some (c :: body, rem)
    | c :: rest =>
      if c.toNat < 0x20 then none
      else
        match parseJsonStringBody fuel rest with
        | none => none
        | some (body, rem) => some (c :: body, rem)

/-- Parse a JSON number starting at the head of the input (strict JSON
grammar: optional minus, no leading zeros, optional fraction and
exponent). -/
def parseJsonNumber (cs : List Char) : Option (ℚ × List Char) :=
  let (sign, s) :=
    match cs with
    | '-' :: rest => ((-1 : ℚ), rest)
    | _ => ((1 : ℚ), cs)
  let intPart := s.takeWhile isPyDigit
  if intPart.length = 0 then none
  else if intPart.length > 1 ∧ intPart.headD '0' = '0' then none
  else
    let s1 := s.drop intPart.length
    let (fracPart, s2) :=
      match s1 with
      | '.' :: rest => (rest.takeWhile isPyDigit, rest.drop (rest.takeWhile isPyDigit).length)
      | _ => (([] : List Char), s1)
    if s1.headD ' ' = '.' ∧ fracPart.length = 0 then none
    else
      let mantissa : ℚ :=
        (digitsToNat intPart : ℚ) + (digitsToNat fracPart : ℚ) / ((10 : ℚ) ^ fracPart.length)
      match s2 with
      | 'e' :: rest | 'E' :: rest =>
        let (esign, rest') :=
          match rest with
          | '-' :: r => ((-1 : ℤ), r)
          | '+' :: r => ((1 : ℤ), r)
          | _ => ((1 : ℤ), rest)
        let eDigits := rest'.takeWhile isPyDigit
        if eDigits.length = 0 then none
        else
          some (sign * mantissa * (10 : ℚ) ^ (esign * (digitsToNat eDigits : ℤ)),
                rest'.drop eDigits.length)
      | _ => some (sign * mantissa, s2)

mutual

/-- Parse one JSON value at the head of the input (whitespace already
skipped by the caller). -/
def parseJsonValue (fuel : Nat) (cs : List Char) : Option (JValue × List Char) :=
  match fuel with
  | 0 => none
  | fuel + 1 =>
    match cs with
    | 't' :: 'r' :: 'u' :: 'e' :: rest => some (.bool true, rest)
    | 'f' :: 'a' :: 'l' :: 's' :: 'e' :: rest => some (.bool false, rest)
    | 'n' :: 'u' :: 'l' :: 'l' :: rest => some (.null, rest)
    | '"' :: rest =>
      match parseJsonStringBody (rest.length + 1) rest with
      | none => none
      | some (body, rem) => some (.str ⟨body⟩, rem)
    | '[' :: rest =>
      let rest := rest.dropWhile isJsonWs
      match rest with
      | ']' :: rem => some (.arr [], rem)
      | _ =>
        match parseJsonArrayItems fuel rest with
        | none => none
        | some (items, rem) => some (.arr items, rem)
    | '{' :: rest =>
      let rest := rest.dropWhile isJsonWs
      match rest with
      | '}' :: rem => some (.obj [], rem)
      | _ =>
        match parseJsonObjectItems fuel rest with
        | none => none
        | some (fields, rem) => some (.obj fields, rem)
    | _ =>
      match parseJsonNumber cs with
      | none => none
      | some (q, rem) => some (.num q, rem)

/-- Parse the comma-separated items of a non-empty JSON array, consuming
the closing bracket. -/
def parseJsonArrayItems (fuel : Nat) (cs : List Char) :
    Option (List JValue × List Char) :=
  match fuel with
  | 0 => none
  | fuel + 1 =>
    match parseJsonValue fuel cs with
    | none => none
    | some (v, rem) =>
      let rem := rem.dropWhile isJsonWs
      match rem with
      | ']' :: rem' => some ([v], rem')
      | ',' :: rem' =>
        match parseJsonArrayItems fuel (rem'.dropWhile isJsonWs) with
        | none => none
        | some (vs, rem'') => some (v :: vs, rem'')
      | _ => none

/-- Parse the comma-separated members of a non-empty JSON object,
consuming the closing brace.  Duplicate keys replace earlier values
(`dict` semantics). -/
def parseJsonObjectItems (fuel : Nat) (cs : List Char) :
    Option (List (String × JValue) × List Char) :=
  match fuel with
  | 0 => none
  | fuel + 1 =>
    match cs with
    | '"' :: rest =>
      match parseJsonStringBody (rest.length + 1) rest with
      | none => none
      | some (keyChars, rem) =>
        let rem := rem.dropWhile isJsonWs
        match rem with
        | ':' :: rem' =>
          match parseJsonValue fuel (rem'.dropWhile isJsonWs) with
          | none => none
          | some (v, rem'') =>
            let rem'' := rem''.dropWhile isJsonWs
            match rem'' with
            | '}' :: rem3 => some ([(⟨keyChars⟩, v)], rem3)
            | ',' :: rem3 =>
              match parseJsonObjectItems fuel (rem3.dropWhile isJsonWs) with
              | none => none
              | some (fields, rem4) =>
                let k : String := ⟨keyChars⟩
                let combined :=
                  if (fields.map Prod.fst).contains k then
                    (k, (jLookup fields k).getD v) :: fields.filter (fun p => p.1 ≠ k)
                  else (k, v) :: fields
                some (combined, rem4)
            | _ => none
        | _ => none
    | _ => none

end

/-- `json.loads(s)`: parse a complete JSON document; `none` models an
uncaught `json.JSONDecodeError`. -/
def jsonLoads (s : String) : Option JValue :=
  let cs := s.data.dropWhile isJsonWs
  match parseJsonValue (cs.length + 1) cs with
  | none => none
  | some (v, rem) => if rem.dropWhile isJsonWs = [] then some v else none

/-! ## MD5 (`hashlib.md5`)

Full MD5 over the UTF-8 bytes of a string, on `Nat` with explicit
`% 2^32` where 32-bit arithmetic wraps.  The deterministic scorer derives
its seed as `int(hashlib.md5(s.encode()).hexdigest(), 16) % 2**32`; the
hex digest read as a base-16 integer equals the digest bytes composed in
big-endian order, which `md5Int` computes directly.
-/

/-- `2^32`, the modulus of all 32-bit arithmetic in MD5 and MT19937. -/
def TWO32 : Nat := 4294967296

/-- The MD5 sine-derived round constants `K[0..63]`. -/
def md5K : List Nat :=
  [ 0xd76aa478, 0xe8c7b756, 0x242070db, 0xc1bdceee, 0xf57c0faf, 0x4787c62a, 0xa8304613, 0xfd469501,
    0x698098d8, 0x8b44f7af, 0xffff5bb1, 0x895cd7be, 0x6b901122, 0xfd987193, 0xa679438e, 0x49b40821,
    0xf61e2562, 0xc040b340, 0x265e5a51, 0xe9b6c7aa, 0xd62f105d, 0x02441453, 0xd8a1e681, 0xe7d3fbc8,
    0x21e1cde6, 0xc33707d6, 0xf4d50d87, 0x455a14ed, 0xa9e3e905, 0xfcefa3f8, 0x676f02d9, 0x8d2a4c8a,
    0xfffa3942, 0x8771f681, 0x6d9d6122, 0xfde5380c, 0xa4beea44, 0x4bdecfa9, 0xf6bb4b60, 0xbebfbc70,
    0x289b7ec6, 0xeaa127fa, 0xd4ef3085, 0x04881d05, 0xd9d4d039, 0xe6db99e5, 0x1fa27cf8, 0xc4ac5665,
    0xf4292244, 0x432aff97, 0xab9423a7, 0xfc93a039, 0x655b59c3, 0x8f0ccc92, 0xffeff47d, 0x85845dd1,
    0x6fa87e4f, 0xfe2ce6e0, 0xa3014314, 0x4e0811a1, 0xf7537e82, 0xbd3af235, 0x2ad7d2bb, 0xeb86d391 ]

/-- The MD5 per-round left-rotation amounts `s[0..63]`. -/
def md5S : List Nat :=
  [ 7, 12, 17, 22, 7, 12, 17, 22, 7, 12, 17, 22, 7, 12, 17, 22,
    5, 9, 14, 20, 5, 9, 14, 20, 5, 9, 14, 20, 5, 9, 14, 20,
    4, 11, 16, 23, 4, 11, 16, 23, 4, 11, 16, 23, 4, 11, 16, 23,
    6, 10, 15, 21, 6, 10, 15, 21, 6, 10, 15, 21, 6, 10, 15, 21 ]

/-- 32-bit left rotation on `Nat` values `< 2^32`. -/
def rotl32 (x n : Nat) : Nat :=
  ((x <<< n) % TWO32) ||| (x >>> (32 - n))

/-- 32-bit bitwise complement. -/
def not32 (x : Nat) : Nat := x ^^^ 0xffffffff

/-- MD5 padding: append `0x80`, zero-fill to 56 mod 64, then the message
bit length modulo `2^64` in little-endian byte order. -/
def md5Pad (msg : List Nat) : List Nat :=
  let padLen := (119 - msg.length % 64) % 64
  let bitLen := (msg.length * 8) % (2 ^ 64)
  msg ++ [0x80] ++ List.replicate padLen 0 ++
    (List.range 8).map (fun i => bitLen / (2 ^ (8 * i)) % 256)

/-- Decode a 64-byte chunk into 16 little-endian 32-bit words. -/
def md5Words (chunk : List Nat) : List Nat :=
  (List.range 16).map (fun i =>
    chunk.getD (4 * i) 0 + chunk.getD (4 * i + 1) 0 * 256 +
    chunk.getD (4 * i + 2) 0 * 65536 + chunk.getD (4 * i + 3) 0 * 16777216)

/-- One MD5 round `i` acting on the register quadruple. -/
def md5Round (m : List Nat) (st : Nat × Nat × Nat × Nat) (i : Nat) :
    Nat × Nat × Nat × Nat :=
  let (a, b, c, d) := st
  let (f, g) :=
    if i < 16 then ((b &&& c) ||| (not32 b &&& d), i)
    else if i < 32 then ((d &&& b) ||| (not32 d &&& c), (5 * i + 1) % 16)
    else if i < 48 then (b ^^^ c ^^^ d, (3 * i + 5) % 16)
    else (c ^^^ (b ||| not32 d), (7 * i) % 16)
  let f' := (f + a + md5K.getD i 0 + m.getD g 0) % TWO32
  (d, (b + rotl32 f' (md5S.getD i 0)) % TWO32, b, c)

/-- Process one 64-byte chunk, updating the 4-word digest state. -/
def md5Chunk (st : Nat × Nat × Nat × Nat) (chunk : List Nat) :
    Nat × Nat × Nat × Nat :=
  let (a0, b0, c0, d0) := st
  let m := md5Words chunk
  let (a, b, c, d) := (List.range 64).foldl (md5Round m) st
  ((a0 + a) % TWO32, (b0 + b) % TWO32, (c0 + c) % TWO32, (d0 + d) % TWO32)

/-- Split a padded message into its 64-byte chunks. -/
def chunks64 (l : List Nat) : List (List Nat) :=
  if _h : l.length = 0 then []
  else l.take 64 :: chunks64 (l.drop 64)
termination_by l.length
decreasing_by simp [List.length_drop]; omega

/-- The 16 digest bytes of MD5 applied to a byte sequence: final state
words serialised little-endian, in register order `a, b, c, d`. -/
def md5Digest (msg : List Nat) : List Nat :=
  let init := (0x67452301, 0xefcdab89, 0x98badcfe, 0x10325476)
  let (a, b, c, d) := (chunks64 (md5Pad msg)).foldl md5Chunk init
  [a, b, c, d].flatMap (fun w => (List.range 4).map (fun i => w / (2 ^ (8 * i)) % 256))

/-- `int(md5(msg).hexdigest(), 16)`: the digest bytes as one big-endian
integer. -/
def md5Int (msg : List Nat) : Nat :=
  (md5Digest msg).foldl (fun acc byte => acc * 256 + byte) 0

/-- UTF-8 bytes of a string (`s.encode()`). -/
def strBytes (s : String) : List Nat :=
  s.toUTF8.toList.map (fun b => b.toNat)

/-! ## MT19937 (`random.Random`)

The CPython Mersenne Twister: `init_by_array` seeding from the 32-bit
digits of the integer seed, the block "twist", tempering, and the 53-bit
`random()` output `(a * 2^26 + b) / 2^53`.  All state words are kept
`< 2^32`; arithmetic wraps with explicit `% 2^32` exactly where the C
source masks with `0xffffffff` (or performs `uint32_t` arithmetic).
`uniform(a, b) = a + (b - a) * random()` over exact rationals.
-/

/-- Most significant bit mask of a 32-bit word. -/
def UPPER_MASK : Nat := 0x80000000

/-- Least significant 31 bits mask. -/
def LOWER_MASK : Nat := 0x7fffffff

/-- `init_genrand` recurrence: produce the remaining words, accumulating
in reverse. -/
def igAux : Nat → Nat → Nat → List Nat → List Nat
  | 0, _, _, acc => acc.reverse
  | k + 1, i, prev, acc =>
    let w := (1812433253 * (prev ^^^ (prev >>> 30)) + i) % TWO32
    igAux k (i + 1) w (w :: acc)

/-- `init_genrand(s)`: the 624-word state seeded from a single word. -/
def initGenrand (s : Nat) : List Nat :=
  igAux 623 1 (s % TWO32) [s % TWO32]

/-- The index advance shared by both `init_by_array` loops:
`i++; if (i >= N) { mt[0] = mt[N-1]; i = 1; }`. -/
def ibaAdvance (mt : List Nat) (i : Nat) : List Nat × Nat :=
  if i + 1 ≥ 624 then (mt.set 0 (mt.getD 623 0), 1) else (mt, i + 1)

/-- First mixing loop of `init_by_array` (multiplier 1664525), threading
the running indices `i`, `j`; returns the state and the final `i`. -/
def ibaStep1 (key : List Nat) : Nat → Nat → Nat → List Nat → List Nat × Nat
  | 0, i, _, mt => (mt, i)
  | k + 1, i, j, mt =>
    let prev := mt.getD (i - 1) 0
    let v := ((mt.getD i 0 ^^^ (((prev ^^^ (prev >>> 30)) * 1664525) % TWO32))
              + key.getD j 0 + j) % TWO32
    let p := ibaAdvance (mt.set i v) i
    ibaStep1 key k p.2 (if j + 1 ≥ key.length then 0 else j + 1) p.1

/-- Second mixing loop of `init_by_array` (multiplier 1566083941, with a
wrapping subtraction of the index). -/
def ibaStep2 : Nat → Nat → List Nat → List Nat
  | 0, _, mt => mt
  | k + 1, i, mt =>
    let prev := mt.getD (i - 1) 0
    let x := mt.getD i 0 ^^^ (((prev ^^^ (prev >>> 30)) * 1566083941) % TWO32)
    let v := (x + (TWO32 - i % TWO32)) % TWO32
    let p := ibaAdvance (mt.set i v) i
    ibaStep2 k p.2 p.1

/-- `init_by_array(key)`: seed from an array of 32-bit words. -/
def initByArray (key : List Nat) : List Nat :=
  let (mt, i) := ibaStep1 key (max 624 key.length) 1 0 (initGenrand 19650218)
  let mt := ibaStep2 623 i mt
  mt.set 0 0x80000000

/-- The 32-bit digits of a seed in little-endian order (CPython's
`random_seed` splits the absolute value of the integer seed this way;
seed `0` contributes the single word `0`). -/
def seedKey (n : Nat) : List Nat :=
  if _h : n < TWO32 then [n % TWO32]
  else n % TWO32 :: seedKey (n / TWO32)
termination_by n
decreasing_by
  have : TWO32 > 1 := by norm_num [TWO32]
  exact Nat.div_lt_self (by omega) this

/-- One in-place step of the state "twist". -/
def twistStep (mt : List Nat) (kk : Nat) : List Nat :=
  let y := (mt.getD kk 0 &&& UPPER_MASK) ||| (mt.getD ((kk + 1) % 624) 0 &&& LOWER_MASK)
  let mag := if y % 2 = 1 then 0x9908b0df else 0
  mt.set kk (mt.getD ((kk + 397) % 624) 0 ^^^ (y >>> 1) ^^^ mag)

/-- Regenerate all 624 words (the `mti >= N` branch of
`genrand_int32`). -/
def twist (mt : List Nat) : List Nat := (List.range 624).foldl twistStep mt

/-- The output tempering of `genrand_int32`. -/
def temper (y0 : Nat) : Nat :=
  let y1 := y0 ^^^ (y0 >>> 11)
  let y2 := y1 ^^^ ((y1 <<< 7) &&& 0x9d2c5680)
  let y3 := y2 ^^^ ((y2 <<< 15) &&& 0xefc60000)
  y3 ^^^ (y3 >>> 18)

/-- Mersenne Twister generator state: word array plus output index. -/
structure MTState where
  mt : List Nat
  mti : Nat

/-- `genrand_int32`: twist when the block is exhausted (resetting the
index to 0), then output the tempered word at the index and advance. -/
def genrandInt32 (st : MTState) : Nat × MTState :=
  if st.mti ≥ 624 then
    (temper ((twist st.mt).getD 0 0), ⟨twist st.mt, 1⟩)
  else
    (temper (st.mt.getD st.mti 0), ⟨st.mt, st.mti + 1⟩)

/-- `random.Random(seed)` for an integer seed: `init_by_array` on the
seed's 32-bit digits, with the output index forcing a twist on first
use. -/
def mtOfSeed (seed : Nat) : MTState := ⟨initByArray (seedKey seed), 624⟩

/-- `random()` (i.e. `genrand_res53`): a 53-bit draw in `[0, 1)` as an
exact rational. -/
def mtRandom (st : MTState) : ℚ × MTState :=
  let r1 := genrandInt32 st
  let r2 := genrandInt32 r1.2
  ((((r1.1 >>> 5) * 67108864 + (r2.1 >>> 6) : Nat) : ℚ) / 9007199254740992, r2.2)

/-- `random.Random(seed).uniform(lo, hi)`. -/
def mtUniform (seed : Nat) (lo hi : ℚ) : ℚ :=
  lo + (hi - lo) * (mtRandom (mtOfSeed seed)).1

/-! ## The deterministic scorer (`score/scorer.py`) -/

/-- Result of the score strategy (`ScoreResult` dataclass). -/
structure ScoreResult where
  initiative_id : String
  confidence : ℚ
  confidence_range : ℚ × ℚ
  deriving Repr, DecidableEq

/-- `_stable_seed(s)`: the MD5 digest of the UTF-8 bytes of `s`, read as
a big-endian hex integer, reduced modulo `2^32`. -/
def stableSeed (s : String) : Nat := md5Int (strBytes s) % 2 ^ 32

/-- `score_confidence(initiative_id, confidence_range)`: seed a fresh
generator from `_stable_seed` and draw once uniformly from the range. -/
def score_confidence (initiative_id : String) (confidence_range : ℚ × ℚ) :
    ScoreResult :=
  let seed := stableSeed initiative_id
  let confidence := mtUniform seed confidence_range.1 confidence_range.2
  { initiative_id := initiative_id
    confidence := confidence
    confidence_range := confidence_range }

/-! ## Review data models and error taxonomy -/

/-- The Python exception classes that can escape the modelled code. -/
inductive PyErr where
  | valueError
  | typeError
  | keyError
  | attributeError
  | fileNotFound
  | jsonDecodeError
  deriving Repr, DecidableEq

/-- A single scored dimension of an artifact review
(`ReviewDimension` dataclass). -/
structure ReviewDimension where
  name : String
  score : ℚ
  justification : String
  deriving Repr, DecidableEq

/-! ## Response parsing (`review/engine.py`)

`_parse_dimensions` runs
`re.finditer` with the DOTALL pattern

`DIMENSION:\s*(?P<name>\S+)\s*\n`
`SCORE:\s*(?P<score>[\d.]+)\s*\n`
`JUSTIFICATION:\s*(?P<justification>.+?)(?=\nDIMENSION:|\nOVERALL:|\Z)`

The scanner below implements exactly the backtracking semantics of this
pattern, resolved as follows (each point validated against CPython `re`):

* `\s*` before a capture is a maximal whitespace skip — the following
  element (`\S+`, `[\d.]+`) can never match whitespace, so no
  backtracking into the run is possible;
* `X\s*\n LIT` (with `X` ∈ {`\S+`, `[\d.]+`} maximal) requires the
  whitespace run after `X` to be non-empty, to end with a newline, and
  to be followed directly by the literal `LIT`;
* the lazy `.+?` with the lookahead takes the characters from the
  position after the maximal whitespace skip up to the earliest strictly
  later position at which `\nDIMENSION:` or `\nOVERALL:` begins or the
  input ends; if that start position is already the end of input, the
  engine backtracks one character into the whitespace run (the group
  becomes that single whitespace character), and if the run is empty too
  the whole block fails to match;
* `finditer` scans start positions left to right and resumes after the
  end of each match.
-/

/-- Match a literal at the head of the input, returning the remainder. -/
def matchLit : List Char → List Char → Option (List Char)
  | [], cs => some cs
  | _ :: _, [] => none
  | p :: ps, c :: cs => if p = c then matchLit ps cs else none

/-- `\s*\n` followed by a literal: maximal whitespace run, non-empty and
ending in a newline, then the literal. -/
def wsNlThen (lit : List Char) (cs : List Char) : Option (List Char) :=
  let ws := cs.takeWhile isPySpace
  if ws.isEmpty || ws.getLastD ' ' ≠ '\n' then none
  else matchLit lit (cs.drop ws.length)

/-- Does `\nDIMENSION:` or `\nOVERALL:` begin here (the lookahead
alternative of the justification group, other than end of input)? -/
def isBoundary (cs : List Char) : Bool :=
  (matchLit "\nDIMENSION:".data cs).isSome || (matchLit "\nOVERALL:".data cs).isSome

/-- Lazy justification scan: having consumed at least one character, stop
at the earliest boundary or at the end of input. -/
def justAux : List Char → List Char → List Char × List Char
  | acc, [] => (acc.reverse, [])
  | acc, c :: rest =>
    if isBoundary (c :: rest) then (acc.reverse, c :: rest)
    else justAux (c :: acc) rest

/-- Try to match one `DIMENSION/SCORE/JUSTIFICATION` block at the head of
the input, returning the three raw capture groups and the remainder after
the match. -/
def matchBlock (cs : List Char) : Option ((String × String × String) × List Char) :=
  match matchLit "DIMENSION:".data cs with
  | none => none
  | some cs1 =>
    let cs2 := cs1.dropWhile isPySpace
    let name := cs2.takeWhile (fun c => ¬ isPySpace c)
    if name.isEmpty then none
    else
      match wsNlThen "SCORE:".data (cs2.drop name.length) with
      | none => none
      | some cs4 =>
        let cs5 := cs4.dropWhile isPySpace
        let score := cs5.takeWhile isScoreChar
        if score.isEmpty then none
        else
          match wsNlThen "JUSTIFICATION:".data (cs5.drop score.length) with
          | none => none
          | some cs7 =>
            let ws := cs7.takeWhile isPySpace
            match cs7.drop ws.length with
            | [] =>
              if ws.isEmpty then none
              else some ((⟨name⟩, ⟨score⟩, ⟨[ws.getLastD ' ']⟩), [])
            | c :: rest =>
              let (just, rem) := justAux [c] rest
              some ((⟨name⟩, ⟨score⟩, ⟨just⟩), rem)

/-- `finditer`: scan start positions left to right, resuming after each
match; `fuel` bounds the recursion (input length suffices, as every step
consumes at least one character). -/
def scanBlocks (fuel : Nat) (cs : List Char) : List (String × String × String) :=
  match fuel with
  | 0 => []
  | fuel + 1 =>
    match cs with
    | [] => []
    | _ :: rest =>
      match matchBlock cs with
      | some (b, rem) => b :: scanBlocks fuel rem
      | none => scanBlocks fuel rest

/-- The structured-text dimensions of a response: each block's name and
justification are stripped, the score is `float()`-converted with
`ValueError` treated as `0.0`, and the result is clamped to `[0, 1]`. -/
def structuredDims (response : String) : List ReviewDimension :=
  (scanBlocks (response.data.length + 1) response.data).map (fun b =>
    { name := ⟨pyStrip b.1.data⟩
      score := clamp01 ((pyFloatOfString b.2.1).getD 0)
      justification := ⟨pyStrip b.2.2.data⟩ })

/-- `float(x)` on a decoded JSON value: numbers pass through, booleans
coerce to 0/1, numeric strings parse (`ValueError` otherwise), and all
other values raise `TypeError`. -/
def pyFloatOfJValue : JValue → Except PyErr ℚ
  | .num q => .ok q
  | .bool b => .ok (if b then 1 else 0)
  | .str s =>
    match pyFloatOfString s with
    | some q => .ok q
    | none => .error .valueError
  | _ => .error .typeError

/-- Text of a JSON value where the dataclass field expects a string.  The
Python code stores a non-string value unconverted; no modelled flow
exercises that case, so it is rendered as the empty string here. -/
def jText : JValue → String
  | .str s => s
  | _ => ""

/-- The loop over `data["dimensions"]`: builds dimensions left to right;
a `TypeError` from `float()` is caught by the surrounding handler (the
already-built prefix is returned), while a `ValueError` from `float()` on
a non-numeric string and an `AttributeError` from `.get` on a non-dict
propagate out of `_parse_dimensions`. -/
def jsonDim (fields : List (String × JValue)) (q : ℚ) : ReviewDimension :=
  { name :=
      match jLookup fields "name" with
      | some v => jText v
      | none => "unknown"
    score := clamp01 q
    justification :=
      match jLookup fields "justification" with
      | some v => jText v
      | none => "" }

def jsonDimsItems : List JValue → List ReviewDimension → Except PyErr (List ReviewDimension)
  | [], acc => .ok acc.reverse
  | .obj fields :: rest, acc =>
    match pyFloatOfJValue (jGetD fields "score" (.num 0)) with
    | .ok q => jsonDimsItems rest (jsonDim fields q :: acc)
    | .error .typeError => .ok acc.reverse
    | .error .valueError => .error .valueError
    | .error .keyError => .error .keyError
    | .error .attributeError => .error .attributeError
    | .error .fileNotFound => .error .fileNotFound
    | .error .jsonDecodeError => .error .jsonDecodeError
  | .null :: _, _ => .error .attributeError
  | .bool _ :: _, _ => .error .attributeError
  | .num _ :: _, _ => .error .attributeError
  | .str _ :: _, _ => .error .attributeError
  | .arr _ :: _, _ => .error .attributeError

/-- The JSON fallback of `_parse_dimensions`: decode the whole response;
a decode failure is caught (empty result), a non-dict document or a dict
without a `"dimensions"` key yields the empty result, and a `dimensions`
value is iterated (iterating a number/bool/null raises `TypeError`, which
is caught; iterating a string or non-empty dict reaches `.get` on a
non-dict, whose `AttributeError` propagates). -/
def dimsValue : JValue → Except PyErr (List ReviewDimension)
  | .arr items => jsonDimsItems items []
  | .str _ => .error .attributeError
  | .obj [] => .ok []
  | .obj (_ :: _) => .error .attributeError
  | .null => .ok []
  | .bool _ => .ok []
  | .num _ => .ok []

/-- The dict branch of the fallback: `"dimensions" in data` then the
iteration. -/
def jsonFallbackOfDict (fields : List (String × JValue)) :
    Except PyErr (List ReviewDimension) :=
  match jLookup fields "dimensions" with
  | none => .ok []
  | some v => dimsValue v

/-- The fallback on the decoded document (`isinstance(data, dict)` guard). -/
def jsonFallbackOfDoc : Option JValue → Except PyErr (List ReviewDimension)
  | none => .ok []
  | some (.obj fields) => jsonFallbackOfDict fields
  | some .null => .ok []
  | some (.bool _) => .ok []
  | some (.num _) => .ok []
  | some (.str _) => .ok []
  | some (.arr _) => .ok []

def jsonFallbackDims (response : String) : Except PyErr (List ReviewDimension) :=
  jsonFallbackOfDoc (jsonLoads response)

/-- `_parse_dimensions(response, expected)`: structured-text blocks take
priority; the JSON fallback runs only when no block matched.  (The
`expected` dimension-name list of the source is unused by the function
body, so it is not a parameter of the model.) -/
def parseDimensions (response : String) : Except PyErr (List ReviewDimension) :=
  let dims := structuredDims response
  if dims.isEmpty then jsonFallbackDims response else .ok dims

/-- `re.search(r"OVERALL:\s*([\d.]+)", response)`: the token of the
earliest full match, scanning start positions left to right. -/
def findOverallToken (fuel : Nat) (cs : List Char) : Option String :=
  match fuel with
  | 0 => none
  | fuel + 1 =>
    match cs with
    | [] => none
    | _ :: rest =>
      let attempt :=
        match matchLit "OVERALL:".data cs with
        | none => none
        | some cs1 =>
          let tok := (cs1.dropWhile isPySpace).takeWhile isScoreChar
          if tok.isEmpty then none else some (⟨tok⟩ : String)
      match attempt with
      | some tok => some tok
      | none => findOverallToken fuel rest

/-- `_parse_overall(response, dimensions)`: a parsed `OVERALL:` line wins
(clamped); a missing line or a `ValueError` from `float()` falls back to
the mean of the dimension scores, or `0.0` with no dimensions. -/
def parseOverall (response : String) (dimensions : List ReviewDimension) : ℚ :=
  let viaLine : Option ℚ :=
    match findOverallToken (response.data.length + 1) response.data with
    | some tok => (pyFloatOfString tok).map clamp01
    | none => none
  match viaLine with
  | some q => q
  | none =>
    if dimensions.isEmpty then 0
    else (dimensions.map ReviewDimension.score).sum / (dimensions.length : ℚ)

/-! ## Review result records (`review/models.py`, `models.py`) -/

/-- Complete result of an artifact review (`ReviewResult` dataclass). -/
structure ReviewResult where
  initiative_id : String
  prompt_name : String
  prompt_version : String
  backend_name : String
  model : String
  dimensions : List ReviewDimension
  overall_score : ℚ
  raw_response : String
  timestamp : String
  deriving Repr, DecidableEq

/-- The `report` field of `EvaluateResult`: a human-readable string for
the score strategy, the full review result for the review strategy. -/
inductive EvalReport where
  | text (s : String)
  | review (r : ReviewResult)
  deriving Repr, DecidableEq

/-- Unified result of the evaluate stage (`EvaluateResult` dataclass). -/
structure EvaluateResult where
  initiative_id : String
  confidence : ℚ
  confidence_range : ℚ × ℚ
  strategy : String
  report : EvalReport
  deriving Repr, DecidableEq

/-- Prompt template specification (`PromptSpec` dataclass). -/
structure PromptSpec where
  name : String
  version : String
  description : String
  dimensions : List String
  system_template : String
  user_template : String
  deriving Repr, DecidableEq

/-- The reviewable unit (`ArtifactPayload` dataclass).  The free-form
`metadata` map (always empty in the flows built by `load_artifact`) only
feeds the prompt variables, which the parameterised backend subsumes, so
it is not carried in the model. -/
structure ArtifactPayload where
  initiative_id : String
  artifact_text : String
  model_type : String
  sample_size : ℤ
  deriving Repr, DecidableEq

/-! ## The job directory

A job directory is a partial map from file names to contents.  Input
files read by the stage are `.text` (raw JSON documents); result files
written by the stage are stored structurally — they stand for the
serialised record and are never read back by any modelled flow. -/

/-- Contents of one file in the job directory. -/
inductive FileData where
  | text (s : String)
  | scoreFile (r : ScoreResult)
  | reviewFile (r : ReviewResult)
  | evalFile (r : EvaluateResult)
  deriving DecidableEq

/-- The job directory state. -/
def FS : Type := String → Option FileData

/-- Write (create or overwrite) one file. -/
def fsWrite (fs : FS) (name : String) (d : FileData) : FS :=
  fun n => if n = name then some d else fs n

/-- The raw text obtained by reading a file (`Path.read_text`).  Result
files are opaque serialisations; no modelled flow reads one back, so
their text is irrelevant and rendered empty. -/
def fileText : FileData → String
  | .text s => s
  | _ => ""

/-! ## Manifest loading (`review/manifest.py`) -/

/-- A single file reference within a manifest (`FileEntry` dataclass). -/
structure FileEntry where
  path : String
  format : String
  deriving Repr, DecidableEq

/-- Parsed manifest for a job directory (`Manifest` dataclass with its
source-code defaults). -/
structure Manifest where
  schema_version : String
  model_type : String
  created_at : String := ""
  files : List (String × FileEntry) := []
  initiative_id : String := ""
  evaluate_strategy : String := "agentic"
  deriving Repr, DecidableEq

/-- Python truthiness of a decoded JSON value (used by
`data.get("initiative_id", "") or job_dir.name`). -/
def jTruthy : JValue → Bool
  | .null => false
  | .bool b => b
  | .num q => q ≠ 0
  | .str s => s ≠ ""
  | .arr l => ¬ l.isEmpty
  | .obj l => ¬ l.isEmpty

/-- The fixed manifest filename. -/
def MANIFEST_FILENAME : String := "manifest.json"

/-- Build the `files` map: each entry must be an object carrying `path`
and `format` (`entry["path"]` raises `KeyError` on a missing key and
`TypeError` when the entry is not a dict). -/
def parseFileEntries : List (String × JValue) → Except PyErr (List (String × FileEntry))
  | [] => .ok []
  | (name, v) :: rest =>
    match v with
    | .obj e =>
      match jLookup e "path", jLookup e "format" with
      | some p, some f =>
        (parseFileEntries rest).map (fun tail => (name, ⟨jText p, jText f⟩) :: tail)
      | _, _ => .error .keyError
    | _ => .error .typeError

/-- Build the `files` map from the document's `files` value:
absent ↦ empty, a dict ↦ entry parsing, any other value ↦
`AttributeError` from `.items()`. -/
def manifestFiles (data : List (String × JValue)) :
    Except PyErr (List (String × FileEntry)) :=
  match jLookup data "files" with
  | none => .ok []
  | some (.obj entries) => parseFileEntries entries
  | some (.arr _) => .error .attributeError
  | some (.str _) => .error .attributeError
  | some .null => .error .attributeError
  | some (.bool _) => .error .attributeError
  | some (.num _) => .error .attributeError

/-- The manifest record assembled from a validated document. -/
def manifestMk (dirName : String) (data : List (String × JValue))
    (files : List (String × FileEntry)) : Manifest :=
  { schema_version := jText (jGetD data "schema_version" .null)
    model_type := jText (jGetD data "model_type" .null)
    created_at := jText (jGetD data "created_at" (.str ""))
    files := files
    initiative_id :=
      match jLookup data "initiative_id" with
      | some v => if jTruthy v then jText v else dirName
      | none => dirName
    evaluate_strategy := jText (jGetD data "evaluate_strategy" (.str "agentic")) }

/-- Validation and assembly for a JSON-object manifest document:
`schema_version` and `model_type` are required. -/
def manifestOfDict (dirName : String) (data : List (String × JValue)) :
    Except PyErr Manifest :=
  if (jLookup data "schema_version").isNone ∨ (jLookup data "model_type").isNone then
    .error .valueError
  else
    match manifestFiles data with
    | .error e => .error e
    | .ok files => .ok (manifestMk dirName data files)

/-- Manifest loading from a decoded document.  A non-object top level
fails the required-field membership test: lists and strings answer the
`in` test negatively (`ValueError`; the degenerate substring corner of a
string containing the key is outside the modelled fragment), the other
scalars raise `TypeError`. -/
def manifestOfDoc (dirName : String) : Option JValue → Except PyErr Manifest
  | none => .error .jsonDecodeError
  | some (.obj data) => manifestOfDict dirName data
  | some (.arr _) => .error .valueError
  | some (.str _) => .error .valueError
  | some .null => .error .typeError
  | some (.bool _) => .error .typeError
  | some (.num _) => .error .typeError

/-- `load_manifest(job_dir)`: read and validate `manifest.json`:
`schema_version` and `model_type` are required (else `ValueError`);
`initiative_id` falls back to the directory name when absent or falsy;
`evaluate_strategy` defaults to `"agentic"`. -/
def load_manifest (fs : FS) (dirName : String) : Except PyErr Manifest :=
  match fs MANIFEST_FILENAME with
  | none => .error .fileNotFound
  | some fd => manifestOfDoc dirName (jsonLoads (fileText fd))

/-! ## Scorer event building (`job_reader.py`) -/

/-- `int(x)` on a decoded JSON value: floats truncate toward zero,
booleans coerce, integer-literal strings parse (`ValueError` otherwise),
all other values raise `TypeError`. -/
def pyIntOfJValue : JValue → Except PyErr ℤ
  | .num q => .ok (Int.tdiv q.num q.den)
  | .bool b => .ok (if b then 1 else 0)
  | .str s =>
    match pyIntOfChars s.data with
    | some n => .ok n
    | none => .error .valueError
  | _ => .error .typeError

/-- The event built from a decoded results dict: numeric fields default
to `0.0` / `0` when absent, conversions may raise, and the overrides are
applied last via `dict.update`. -/
def scorerEventOfDict (m : Manifest) (dirName : String)
    (overrides : List (String × JValue)) (data : List (String × JValue)) :
    Except PyErr (List (String × JValue)) := do
  let ciU ← pyFloatOfJValue (jGetD data "ci_upper" (.num 0))
  let eff ← pyFloatOfJValue (jGetD data "effect_estimate" (.num 0))
  let ciL ← pyFloatOfJValue (jGetD data "ci_lower" (.num 0))
  let cts ← pyFloatOfJValue (jGetD data "cost_to_scale" (.num 0))
  let ss ← pyIntOfJValue (jGetD data "sample_size" (.num 0))
  let event : List (String × JValue) :=
    [("initiative_id", .str (if m.initiative_id = "" then dirName else m.initiative_id)),
     ("model_type", .str m.model_type),
     ("ci_upper", .num ciU),
     ("effect_estimate", .num eff),
     ("ci_lower", .num ciL),
     ("cost_to_scale", .num cts),
     ("sample_size", .num (ss : ℚ))]
  .ok (overrides.foldl (fun ev kv => setKey ev kv.1 kv.2) event)

/-- Event building from the decoded document: a non-dict document fails
the `.get` attribute access. -/
def scorerEventOfDoc (m : Manifest) (dirName : String)
    (overrides : List (String × JValue)) :
    Option JValue → Except PyErr (List (String × JValue))
  | none => .error .jsonDecodeError
  | some (.obj data) => scorerEventOfDict m dirName overrides data
  | some .null => .error .attributeError
  | some (.bool _) => .error .attributeError
  | some (.num _) => .error .attributeError
  | some (.str _) => .error .attributeError
  | some (.arr _) => .error .attributeError

/-- `load_scorer_event(manifest, job_dir, overrides)`: read
`impact_results.json` (`FileNotFoundError` when absent), default each
missing numeric field to `0.0` / `0`, then apply the overrides last via
`dict.update`. -/
def load_scorer_event (m : Manifest) (fs : FS) (dirName : String)
    (overrides : List (String × JValue)) : Except PyErr (List (String × JValue)) :=
  match fs "impact_results.json" with
  | none => .error .fileNotFound
  | some fd => scorerEventOfDoc m dirName overrides (jsonLoads (fileText fd))

/-! ## Method reviewers (`review/methods/`) -/

/-- A methodology-specific reviewer: its registry metadata and fixed
confidence range.  `load_artifact` is one shared function below — the
`ExperimentReviewer` override duplicates the base-class body verbatim,
and `QuasiExperimentalReviewer` inherits it, so both registered
reviewers load artifacts identically. -/
structure MethodReviewer where
  name : String
  prompt_name : String
  description : String
  confidence_range : ℚ × ℚ
  deriving Repr, DecidableEq

/-- The `"experiment"` (RCT) reviewer. -/
def ExperimentReviewer : MethodReviewer :=
  { name := "experiment"
    prompt_name := "experiment_review"
    description := "Review experimental (RCT) impact measurement artifacts."
    confidence_range := (0.85, 1.0) }

/-- The `"quasi_experimental"` reviewer. -/
def QuasiExperimentalReviewer : MethodReviewer :=
  { name := "quasi_experimental"
    prompt_name := "quasi_experimental_review"
    description := "Review quasi-experimental (DiD, RDD, IV) impact measurement artifacts."
    confidence_range := (0.60, 0.85) }

/-- The reviewers registered at import time. -/
def registryMethods : List (String × MethodReviewer) :=
  [("experiment", ExperimentReviewer), ("quasi_experimental", QuasiExperimentalReviewer)]

/-- `MethodReviewerRegistry.create(name)`: `KeyError` when unknown. -/
def registryCreate (name : String) : Except PyErr MethodReviewer :=
  match registryMethods.lookup name with
  | some r => .ok r
  | none => .error .keyError

/-- One step of the artifact loop: skip missing files, collect the
headed content of existing ones, and extract `sample_size` from the
first JSON-format file that decodes to a dict with a convertible value
(conversion errors are caught and ignored). -/
def loadArtifactLoop (fs : FS) :
    List (String × FileEntry) → List String → ℤ → List String × ℤ
  | [], parts, ss => (parts.reverse, ss)
  | (name, e) :: rest, parts, ss =>
    match fs e.path with
    | none => loadArtifactLoop fs rest parts ss
    | some fd =>
      let content := fileText fd
      let part := "=== " ++ name ++ " (" ++ e.format ++ ") ===\n" ++ content
      let ss' :=
        if e.format = "json" ∧ ss = 0 then
          match jsonLoads content with
          | some (.obj data) =>
            match pyIntOfJValue (jGetD data "sample_size" (.num 0)) with
            | .ok n => n
            | .error _ => ss
          | _ => ss
        else ss
      loadArtifactLoop fs rest (part :: parts) ss'

/-- `MethodReviewer.load_artifact(manifest, job_dir)`: `ValueError` on an
empty file map, otherwise the concatenation of every existing listed
file prefixed with its `=== name (format) ===` header. -/
def load_artifact (m : Manifest) (fs : FS) (dirName : String) :
    Except PyErr ArtifactPayload :=
  if m.files.isEmpty then .error .valueError
  else
    let r := loadArtifactLoop fs m.files [] 0
    .ok { initiative_id := if m.initiative_id = "" then dirName else m.initiative_id
          artifact_text := String.intercalate "\n\n" r.1
          model_type := m.model_type
          sample_size := r.2 }

/-! ## Review API and evaluation router (`review/api.py`, `adapter.py`)

The process-external collaborators of the review path are bundled in
`ReviewEnv` and universally quantified in the theorems:

* `promptRes` — the outcome of prompt resolution (registry lookup or the
  reviewer's packaged YAML template; may fail with `FileNotFoundError` /
  `KeyError`);
* `knowledgeRes` — the outcome of knowledge resolution (registry lookup
  or packaged knowledge directory; may fail with `KeyError`);
* `engineInit` — the outcome of `ReviewEngine.from_config` (backend
  construction), yielding the backend name and effective model string;
* `complete` — the LLM completion call on the rendered messages (network
  I/O; any exception propagates);
* `now` — the review timestamp.

Quantifying over `ReviewEnv` covers every configuration, template
content, and backend behaviour. -/

/-- External collaborators of the review path. -/
structure ReviewEnv where
  promptRes : MethodReviewer → Except PyErr PromptSpec
  knowledgeRes : MethodReviewer → Except PyErr String
  engineInit : Except PyErr (String × String)
  complete : MethodReviewer → PromptSpec → ArtifactPayload → String → Except PyErr String
  now : String

/-- `ReviewEngine.review`: call the backend, parse dimensions and the
overall score, and package the result record. -/
def engineReview (env : ReviewEnv) (rev : MethodReviewer) (spec : PromptSpec)
    (art : ArtifactPayload) (knowledge : String) (names : String × String) :
    Except PyErr ReviewResult := do
  let raw ← env.complete rev spec art knowledge
  let dims ← parseDimensions raw
  let overall := parseOverall raw dims
  .ok { initiative_id := art.initiative_id
        prompt_name := spec.name
        prompt_version := spec.version
        backend_name := names.1
        model := names.2
        dimensions := dims
        overall_score := overall
        raw_response := raw
        timestamp := env.now }

/-- `compute_review(job_dir, config)`: manifest → reviewer → artifact →
prompt → knowledge → engine → review, without writing anything. -/
def compute_review (fs : FS) (dirName : String) (env : ReviewEnv) :
    Except PyErr ReviewResult := do
  let m ← load_manifest fs dirName
  let rev ← registryCreate m.model_type
  let art ← load_artifact m fs dirName
  let spec ← env.promptRes rev
  let knowledge ← env.knowledgeRes rev
  let names ← env.engineInit
  engineReview env rev spec art knowledge names

/-- The fixed result filenames of the stage. -/
def REVIEW_RESULT_FILENAME : String := "review_result.json"

/-- `score_result.json`. -/
def SCORE_RESULT_FILENAME : String := "score_result.json"

/-- `evaluate_result.json`. -/
def EVALUATE_RESULT_FILENAME : String := "evaluate_result.json"

/-- `review(job_dir, config)`: compute, then write
`review_result.json`. -/
def review_api (fs : FS) (dirName : String) (env : ReviewEnv) :
    Except PyErr (FS × ReviewResult) := do
  let rr ← compute_review fs dirName env
  .ok (fsWrite fs REVIEW_RESULT_FILENAME (.reviewFile rr), rr)

/-- The router's strategy whitelist (`_KNOWN_STRATEGIES`). -/
def KNOWN_STRATEGIES : List String := ["score", "review"]

/-- `EvaluationRouter.route(manifest)`: reject an unknown
`evaluate_strategy` with `ValueError` before creating the method
reviewer (`KeyError` on an unknown `model_type`). -/
def route (m : Manifest) : Except PyErr (String × MethodReviewer) :=
  if ¬ KNOWN_STRATEGIES.contains m.evaluate_strategy then .error .valueError
  else (registryCreate m.model_type).map (fun r => (m.evaluate_strategy, r))

/-- Two-decimal formatting of a rational (`f"{x:.2f}"`), rounding
half-to-even.  Used for the score-strategy report string. -/
def fmt2 (q : ℚ) : String :=
  let scaled := q * 100
  let fl : ℤ := ⌊scaled⌋
  let frac := scaled - fl
  let n : ℤ :=
    if frac > 1/2 then fl + 1
    else if frac < 1/2 then fl
    else if fl % 2 = 0 then fl else fl + 1
  let sign := if n < 0 then "-" else ""
  let a := n.natAbs
  sign ++ toString (a / 100) ++ "." ++ (if a % 100 < 10 then "0" else "") ++ toString (a % 100)

/-- The value of `scorer_event["initiative_id"]` (always present: the
event is built with it and only `cost_to_scale` can be overridden). -/
def evInitiative (ev : List (String × JValue)) : String :=
  jText (jGetD ev "initiative_id" (.str ""))

/-- The overrides built from the orchestrator event: only a present
`cost_to_scale` key is forwarded. -/
def costOverrides : Option JValue → List (String × JValue)
  | some v => [("cost_to_scale", v)]
  | none => []

/-- `Evaluate.execute(event)`: load the manifest, route on the declared
strategy, build the scorer event (with the optional `cost_to_scale`
override from the orchestrator event), then run the selected strategy
and persist `score_result.json` / `review_result.json` and the shared
`evaluate_result.json`. -/
def execute (fs : FS) (dirName : String) (cost : Option JValue) (env : ReviewEnv) :
    Except PyErr (FS × EvaluateResult) := do
  let m ← load_manifest fs dirName
  let sr ← route m
  let strategy := sr.1
  let reviewer := sr.2
  let ev ← load_scorer_event m fs dirName (costOverrides cost)
  let range := reviewer.confidence_range
  if strategy = "score" then
    let scoreRes := score_confidence (evInitiative ev) range
    let fs1 := fsWrite fs SCORE_RESULT_FILENAME (.scoreFile scoreRes)
    let report := "Confidence drawn uniformly between " ++ fmt2 range.1 ++
      " and " ++ fmt2 range.2
    let result : EvaluateResult :=
      { initiative_id := evInitiative ev
        confidence := scoreRes.confidence
        confidence_range := range
        strategy := strategy
        report := .text report }
    .ok (fsWrite fs1 EVALUATE_RESULT_FILENAME (.evalFile result), result)
  else do
    let pair ← review_api fs dirName env
    let result : EvaluateResult :=
      { initiative_id := evInitiative ev
        confidence := pair.2.overall_score
        confidence_range := range
        strategy := strategy
        report := .review pair.2 }
    .ok (fsWrite pair.1 EVALUATE_RESULT_FILENAME (.evalFile result), result)

end ImpactEngine





namespace ImpactEngine

/-! ## Helper instances and lemmas -/

/-- Decidable equality for `Except`, for concrete evaluations. -/
instance instDecEqExcept {ε α : Type} [DecidableEq ε] [DecidableEq α] :
    DecidableEq (Except ε α)
  | .ok x, .ok y =>
    if h : x = y then .isTrue (by rw [h])
    else .isFalse (fun he => by cases he; exact h rfl)
  | .error e, .error f =>
    if h : e = f then .isTrue (by rw [h])
    else .isFalse (fun he => by cases he; exact h rfl)
  | .ok _, .error _ => .isFalse (fun h => by cases h)
  | .error _, .ok _ => .isFalse (fun h => by cases h)

/-- All entries of a Mersenne Twister state array are 32-bit words. -/
def Wf32 (l : List Nat) : Prop := ∀ x ∈ l, x < TWO32

theorem two32_pos : 0 < TWO32 := by norm_num [TWO32]

theorem two32_eq : TWO32 = 2 ^ 32 := by norm_num [TWO32]

theorem mod_lt32 (a : Nat) : a % TWO32 < TWO32 := Nat.mod_lt _ two32_pos

theorem xor_lt32 {a b : Nat} (ha : a < TWO32) (hb : b < TWO32) : a ^^^ b < TWO32 := by
  rw [two32_eq] at *
  exact Nat.xor_lt_two_pow ha hb

theorem or_lt32 {a b : Nat} (ha : a < TWO32) (hb : b < TWO32) : a ||| b < TWO32 := by
  rw [two32_eq] at *
  exact Nat.or_lt_two_pow ha hb

theorem and_lt32 (a : Nat) {b : Nat} (hb : b < TWO32) : a &&& b < TWO32 := by
  rw [two32_eq] at *
  exact Nat.and_lt_two_pow a hb

theorem shiftRight_lt32 {a : Nat} (ha : a < TWO32) (k : Nat) : a >>> k < TWO32 := by
  rw [Nat.shiftRight_eq_div_pow]
  exact Nat.lt_of_le_of_lt (Nat.div_le_self a (2 ^ k)) ha

theorem wf_getD : ∀ (l : List Nat), Wf32 l → ∀ i, l.getD i 0 < TWO32
  | [], _, i => by simpa [List.getD] using two32_pos
  | a :: _, h, 0 => h a (by simp)
  | _ :: l, h, i + 1 => by
    simpa [List.getD_cons_succ] using
      wf_getD l (fun x hx => h x (by simp [hx])) i

theorem wf_set (l : List Nat) (i : Nat) {v : Nat} (h : Wf32 l) (hv : v < TWO32) :
    Wf32 (l.set i v) := by
  intro x hx
  rcases List.mem_or_eq_of_mem_set hx with hx | hx
  · exact h x hx
  · simpa [hx] using hv

/-! ## MT19937 state invariant: every word stays below `2^32` -/

theorem wf_igAux : ∀ (k i prev : Nat) (acc : List Nat), Wf32 acc →
    Wf32 (igAux k i prev acc)
  | 0, _, _, acc, h => by
    intro x hx
    rw [igAux] at hx
    exact h x (List.mem_reverse.1 hx)
  | k + 1, i, prev, acc, h => by
    rw [igAux]
    refine wf_igAux k _ _ _ ?_
    intro x hx
    rcases List.mem_cons.1 hx with hx | hx
    · simpa [hx] using mod_lt32 _
    · exact h x hx

theorem wf_initGenrand (s : Nat) : Wf32 (initGenrand s) := by
  refine wf_igAux _ _ _ _ ?_
  intro x hx
  rcases List.mem_cons.1 hx with hx | hx
  · simpa [hx] using mod_lt32 s
  · simp at hx

theorem wf_ibaAdvance {mt : List Nat} (h : Wf32 mt) (i : Nat) :
    Wf32 (ibaAdvance mt i).1 := by
  rw [ibaAdvance]
  split
  · exact wf_set _ 0 h (wf_getD _ h 623)
  · exact h

theorem wf_ibaStep1 (key : List Nat) :
    ∀ (k i j : Nat) (mt : List Nat), Wf32 mt → Wf32 (ibaStep1 key k i j mt).1
  | 0, _, _, _, h => h
  | k + 1, i, j, mt, h => by
    rw [ibaStep1]
    exact wf_ibaStep1 key k _ _ _ (wf_ibaAdvance (wf_set mt i h (mod_lt32 _)) i)

theorem wf_ibaStep2 : ∀ (k i : Nat) (mt : List Nat), Wf32 mt →
    Wf32 (ibaStep2 k i mt)
  | 0, _, _, h => h
  | k + 1, i, mt, h => by
    rw [ibaStep2]
    exact wf_ibaStep2 k _ _ (wf_ibaAdvance (wf_set mt i h (mod_lt32 _)) i)

theorem wf_initByArray (key : List Nat) : Wf32 (initByArray key) := by
  rw [initByArray]
  refine wf_set _ 0 ?_ (by norm_num [TWO32])
  exact wf_ibaStep2 _ _ _ (wf_ibaStep1 key _ _ _ _ (wf_initGenrand 19650218))

theorem wf_twistStep {mt : List Nat} (h : Wf32 mt) (kk : Nat) :
    Wf32 (twistStep mt kk) := by
  rw [twistStep]
  refine wf_set mt kk h ?_
  refine xor_lt32 (xor_lt32 (wf_getD _ h _) (shiftRight_lt32 ?_ 1)) ?_
  · exact or_lt32 (and_lt32 _ (by norm_num [TWO32, UPPER_MASK]))
      (and_lt32 _ (by norm_num [TWO32, LOWER_MASK]))
  · split <;> norm_num [TWO32]

theorem wf_twist {mt : List Nat} (h : Wf32 mt) : Wf32 (twist mt) := by
  rw [twist]
  generalize List.range 624 = l
  induction l generalizing mt with
  | nil => exact h
  | cons a l ih => exact ih (wf_twistStep h a)

theorem temper_lt32 {y0 : Nat} (h : y0 < TWO32) : temper y0 < TWO32 := by
  simp only [temper]
  have h1 : y0 ^^^ y0 >>> 11 < TWO32 := xor_lt32 h (shiftRight_lt32 h 11)
  have h2 : y0 ^^^ y0 >>> 11 ^^^ (y0 ^^^ y0 >>> 11) <<< 7 &&& 2636928640 < TWO32 :=
    xor_lt32 h1 (and_lt32 _ (by norm_num [TWO32]))
  have h3 : y0 ^^^ y0 >>> 11 ^^^ (y0 ^^^ y0 >>> 11) <<< 7 &&& 2636928640 ^^^
      (y0 ^^^ y0 >>> 11 ^^^ (y0 ^^^ y0 >>> 11) <<< 7 &&& 2636928640) <<< 15 &&& 4022730752 <
        TWO32 :=
    xor_lt32 h2 (and_lt32 _ (by norm_num [TWO32]))
  exact xor_lt32 h3 (shiftRight_lt32 h3 18)

theorem genrandInt32_lt32 {st : MTState} (h : Wf32 st.mt) :
    (genrandInt32 st).1 < TWO32 ∧ Wf32 (genrandInt32 st).2.mt := by
  by_cases hc : st.mti ≥ 624
  · simp only [genrandInt32, if_pos hc]
    exact ⟨temper_lt32 (wf_getD _ (wf_twist h) _), wf_twist h⟩
  · simp only [genrandInt32, if_neg hc]
    exact ⟨temper_lt32 (wf_getD _ h _), h⟩

theorem mtRandom_bounds {st : MTState} (h : Wf32 st.mt) :
    0 ≤ (mtRandom st).1 ∧ (mtRandom st).1 < 1 := by
  obtain ⟨h1, hst1⟩ := genrandInt32_lt32 h
  obtain ⟨h2, _⟩ := genrandInt32_lt32 hst1
  simp only [mtRandom]
  constructor
  · exact div_nonneg (Nat.cast_nonneg _) (by norm_num)
  · rw [div_lt_one (by norm_num)]
    have ha : (genrandInt32 st).1 >>> 5 < 134217728 := by
      rw [Nat.shiftRight_eq_div_pow]
      rw [show TWO32 = 134217728 * 2 ^ 5 by norm_num [TWO32]] at h1
      exact Nat.div_lt_of_lt_mul h1
    have hb : (genrandInt32 (genrandInt32 st).2).1 >>> 6 < 67108864 := by
      rw [Nat.shiftRight_eq_div_pow]
      rw [show TWO32 = 67108864 * 2 ^ 6 by norm_num [TWO32]] at h2
      exact Nat.div_lt_of_lt_mul h2
    have hnum : (genrandInt32 st).1 >>> 5 * 67108864 +
        (genrandInt32 (genrandInt32 st).2).1 >>> 6 < 9007199254740992 := by omega
    exact_mod_cast Nat.cast_lt.2 hnum

theorem wf_mtOfSeed (seed : Nat) : Wf32 (mtOfSeed seed).mt := by
  simp only [mtOfSeed]
  exact wf_initByArray (seedKey seed)

theorem mtUniform_mem {seed : Nat} {lo hi : ℚ} (h : lo ≤ hi) :
    lo ≤ mtUniform seed lo hi ∧ mtUniform seed lo hi ≤ hi := by
  obtain ⟨hu0, hu1⟩ := @mtRandom_bounds (mtOfSeed seed) (wf_mtOfSeed seed)
  rw [mtUniform]
  constructor
  · nlinarith
  · nlinarith

end ImpactEngine

namespace ImpactEngine

/-! ## Claim theorems -/

/-- **C1.**  For every `initiative_id` string and every `confidence_range`
pair, two calls to `score_confidence` return identical `ScoreResult`
values (the function is a pure function of its two arguments); the seed
is exactly the MD5 digest of the id reduced modulo `2^32`, and the
confidence draw depends on nothing but the seed and the range: two ids
with equal seeds receive equal confidences for every range. -/
theorem score_confidence_deterministic :
    (∀ (id : String) (r : ℚ × ℚ), score_confidence id r = score_confidence id r) ∧
    (∀ id : String, stableSeed id = md5Int (strBytes id) % 2 ^ 32) ∧
    (∀ (id₁ id₂ : String) (r : ℚ × ℚ), stableSeed id₁ = stableSeed id₂ →
      (score_confidence id₁ r).confidence = (score_confidence id₂ r).confidence) := by
  refine ⟨fun _ _ => rfl, fun _ => rfl, fun id₁ id₂ r h => ?_⟩
  simp only [score_confidence, h]

/-- Witness for C1 at the concrete id `"init-001"` and the experiment
range. -/
theorem score_confidence_deterministic_witness :
    (score_confidence "init-001" (0.85, 1.0)).confidence
      = (score_confidence "init-001" (0.85, 1.0)).confidence :=
  score_confidence_deterministic.2.2 "init-001" "init-001" (0.85, 1.0) rfl

/-- **C2.**  For every `initiative_id` and every range `(lo, hi)` with
`lo ≤ hi`, the drawn confidence lies in `[lo, hi]`. -/
theorem score_confidence_range_containment (id : String) (lo hi : ℚ)
    (h : lo ≤ hi) :
    lo ≤ (score_confidence id (lo, hi)).confidence ∧
    (score_confidence id (lo, hi)).confidence ≤ hi := by
  have hc : (score_confidence id (lo, hi)).confidence
      = mtUniform (stableSeed id) lo hi := rfl
  rw [hc]
  exact mtUniform_mem h

/-- Witness for C2 at the concrete id `"init-001"` and the experiment
range `(0.85, 1.0)`. -/
theorem score_confidence_range_containment_witness :
    (0.85 : ℚ) ≤ 1.0 ∧
    (0.85 ≤ (score_confidence "init-001" (0.85, 1.0)).confidence ∧
      (score_confidence "init-001" (0.85, 1.0)).confidence ≤ 1.0) :=
  ⟨by norm_num, score_confidence_range_containment "init-001" 0.85 1.0 (by norm_num)⟩

end ImpactEngine

namespace ImpactEngine

/-! ## Parser score bounds -/

theorem structuredDims_mem_bounds (s : String) :
    ∀ d ∈ structuredDims s, 0 ≤ d.score ∧ d.score ≤ 1 := by
  intro d hd
  simp only [structuredDims, List.mem_map] at hd
  obtain ⟨b, _, rfl⟩ := hd
  exact ⟨clamp01_nonneg _, clamp01_le_one _⟩

theorem jsonDimsItems_mem_bounds :
    ∀ (items : List JValue) (acc dims : List ReviewDimension),
      (∀ d ∈ acc, 0 ≤ d.score ∧ d.score ≤ 1) →
      jsonDimsItems items acc = .ok dims →
      ∀ d ∈ dims, 0 ≤ d.score ∧ d.score ≤ 1
  | [], acc, dims, hacc, h => by
    rw [jsonDimsItems] at h
    cases h
    intro d hd
    exact hacc d (List.mem_reverse.1 hd)
  | .obj fields :: rest, acc, dims, hacc, h => by
    rw [jsonDimsItems] at h
    revert h
    cases hf : pyFloatOfJValue (jGetD fields "score" (.num 0)) with
    | ok q =>
      intro h
      refine jsonDimsItems_mem_bounds rest _ dims ?_ h
      intro d hd
      rcases List.mem_cons.1 hd with hd | hd
      · subst hd; exact ⟨clamp01_nonneg _, clamp01_le_one _⟩
      · exact hacc d hd
    | error e =>
      cases e <;> intro h <;>
        first
          | exact Except.noConfusion h
          | · cases h
              intro d hd
              exact hacc d (List.mem_reverse.1 hd)
  | .null :: _, _, dims, _, h => Except.noConfusion h
  | .bool _ :: _, _, dims, _, h => Except.noConfusion h
  | .num _ :: _, _, dims, _, h => Except.noConfusion h
  | .str _ :: _, _, dims, _, h => Except.noConfusion h
  | .arr _ :: _, _, dims, _, h => Except.noConfusion h

theorem dimsValue_mem_bounds (v : JValue) (dims : List ReviewDimension)
    (h : dimsValue v = .ok dims) :
    ∀ d ∈ dims, 0 ≤ d.score ∧ d.score ≤ 1 := by
  cases v with
  | arr items => exact jsonDimsItems_mem_bounds items [] dims (by simp) h
  | str s2 => exact Except.noConfusion h
  | obj l =>
    cases l with
    | nil => cases h; simp
    | cons a t => exact Except.noConfusion h
  | null => cases h; simp
  | bool b => cases h; simp
  | num q => cases h; simp

theorem jsonFallbackOfDict_mem_bounds (fields : List (String × JValue))
    (dims : List ReviewDimension) (h : jsonFallbackOfDict fields = .ok dims) :
    ∀ d ∈ dims, 0 ≤ d.score ∧ d.score ≤ 1 := by
  rw [jsonFallbackOfDict] at h
  revert h
  cases jLookup fields "dimensions" with
  | none => intro h; cases h; simp
  | some v => intro h; exact dimsValue_mem_bounds v dims h

theorem jsonFallbackDims_mem_bounds (s : String) (dims : List ReviewDimension)
    (h : jsonFallbackDims s = .ok dims) :
    ∀ d ∈ dims, 0 ≤ d.score ∧ d.score ≤ 1 := by
  rw [jsonFallbackDims] at h
  revert h
  cases jsonLoads s with
  | none => intro h; cases h; simp
  | some v =>
    cases v with
    | obj fields => intro h; exact jsonFallbackOfDict_mem_bounds fields dims h
    | null => intro h; cases h; simp
    | bool b => intro h; cases h; simp
    | num q => intro h; cases h; simp
    | str s2 => intro h; cases h; simp
    | arr l => intro h; cases h; simp

theorem parseDimensions_score_bounds (s : String) (dims : List ReviewDimension)
    (h : parseDimensions s = .ok dims) :
    ∀ d ∈ dims, 0 ≤ d.score ∧ d.score ≤ 1 := by
  simp only [parseDimensions] at h
  by_cases hc : (structuredDims s).isEmpty
  · rw [if_pos hc] at h
    exact jsonFallbackDims_mem_bounds s dims h
  · rw [if_neg hc] at h
    cases h
    exact structuredDims_mem_bounds s

end ImpactEngine

namespace ImpactEngine

/-- **C3 (counterexample).**  The claim predicts that a structured-text
block reporting `SCORE: -0.2` stores a dimension with score `0.0`; in
fact the block pattern `[\d.]+` cannot match a minus sign, so the block
does not match at all and no dimension is produced. -/
theorem parse_dimensions_negative_counterexample :
    parseDimensions "DIMENSION: x\nSCORE: -0.2\nJUSTIFICATION: j" = .ok [] ∧
    parseDimensions "DIMENSION: x\nSCORE: -0.2\nJUSTIFICATION: j"
      ≠ .ok [⟨"x", 0, "j"⟩] := by
  constructor
  · decide
  · decide

/-- **C3 (amended).**  Every dimension produced by `_parse_dimensions`
has its score clamped into `[0, 1]`.  A structured-text `SCORE: 1.5`
stores `1.0`; in the JSON path `-0.2` stores `0.0` and `1.5` stores
`1.0`; a non-numeric structured-text score token (`1.2.3`, matched by
`[\d.]+` but rejected by `float()`) stores `0.0`.  A structured-text
block with a negative score does not match at all, and a non-numeric
JSON string score raises an uncaught `ValueError`. -/
theorem parse_dimensions_clamping :
    (∀ (s : String) (dims : List ReviewDimension), parseDimensions s = .ok dims →
      ∀ d ∈ dims, 0 ≤ d.score ∧ d.score ≤ 1) ∧
    parseDimensions "DIMENSION: x\nSCORE: 1.5\nJUSTIFICATION: j" = .ok [⟨"x", 1, "j"⟩] ∧
    parseDimensions
      "\x7b\"dimensions\": [\x7b\"name\": \"a\", \"score\": -0.2, \"justification\": \"j\"\x7d, \x7b\"name\": \"b\", \"score\": 1.5\x7d]\x7d"
      = .ok [⟨"a", 0, "j"⟩, ⟨"b", 1, ""⟩] ∧
    parseDimensions "DIMENSION: x\nSCORE: 1.2.3\nJUSTIFICATION: j" = .ok [⟨"x", 0, "j"⟩] ∧
    parseDimensions "\x7b\"dimensions\": [\x7b\"name\":\"a\",\"score\":\"abc\"\x7d]\x7d"
      = .error .valueError :=
  ⟨parseDimensions_score_bounds, by decide, by decide, by decide, by decide⟩

/-- Witness for the amended C3: the clamped `1.5` response satisfies the
universal bound. -/
theorem parse_dimensions_clamping_witness :
    parseDimensions "DIMENSION: x\nSCORE: 1.5\nJUSTIFICATION: j" = .ok [⟨"x", 1, "j"⟩] ∧
    (0 ≤ (⟨"x", (1 : ℚ), "j"⟩ : ReviewDimension).score ∧
      (⟨"x", (1 : ℚ), "j"⟩ : ReviewDimension).score ≤ 1) :=
  ⟨by decide,
   parse_dimensions_clamping.1 "DIMENSION: x\nSCORE: 1.5\nJUSTIFICATION: j"
     [⟨"x", 1, "j"⟩] (by decide) _ (by simp)⟩

/-- **C5.**  `_parse_dimensions` returns the structured-text blocks
whenever at least one matched, ignoring any JSON in the same string; the
JSON fallback is consulted exactly when zero blocks matched.  On a string
holding both a JSON `dimensions` array and a structured block, only the
block is returned; on a pure-JSON response the dimensions are recovered
from JSON. -/
theorem parse_dimensions_fallback_ordering :
    (∀ s : String, structuredDims s ≠ [] → parseDimensions s = .ok (structuredDims s)) ∧
    (∀ s : String, structuredDims s = [] → parseDimensions s = jsonFallbackDims s) ∧
    parseDimensions
      "Here \x7b\"dimensions\": [\x7b\"name\": \"z\", \"score\": 0.1\x7d]\x7d\nDIMENSION: real\nSCORE: 0.4\nJUSTIFICATION: from text"
      = .ok [⟨"real", 2/5, "from text"⟩] ∧
    parseDimensions
      "\x7b\"dimensions\": [\x7b\"name\": \"accuracy\", \"score\": 0.9, \"justification\": \"Good\"\x7d, \x7b\"name\": \"completeness\", \"score\": 0.8, \"justification\": \"Mostly complete\"\x7d]\x7d"
      = .ok [⟨"accuracy", 9/10, "Good"⟩, ⟨"completeness", 4/5, "Mostly complete"⟩] := by
  refine ⟨fun s h => ?_, fun s h => ?_, by decide, by decide⟩
  · simp only [parseDimensions, List.isEmpty_iff]
    rw [if_neg h]
  · simp only [parseDimensions, List.isEmpty_iff]
    rw [if_pos h]

/-- Witness for C5 on the mixed text-plus-JSON response. -/
theorem parse_dimensions_fallback_ordering_witness :
    structuredDims
        "Here \x7b\"dimensions\": [\x7b\"name\": \"z\", \"score\": 0.1\x7d]\x7d\nDIMENSION: real\nSCORE: 0.4\nJUSTIFICATION: from text"
      ≠ [] ∧
    parseDimensions
        "Here \x7b\"dimensions\": [\x7b\"name\": \"z\", \"score\": 0.1\x7d]\x7d\nDIMENSION: real\nSCORE: 0.4\nJUSTIFICATION: from text"
      = .ok (structuredDims
        "Here \x7b\"dimensions\": [\x7b\"name\": \"z\", \"score\": 0.1\x7d]\x7d\nDIMENSION: real\nSCORE: 0.4\nJUSTIFICATION: from text") :=
  ⟨by decide,
   parse_dimensions_fallback_ordering.1
     "Here \x7b\"dimensions\": [\x7b\"name\": \"z\", \"score\": 0.1\x7d]\x7d\nDIMENSION: real\nSCORE: 0.4\nJUSTIFICATION: from text"
     (by decide)⟩

/-- **C6.**  The overall score resolution order: a parsed `OVERALL:`
token that converts wins (clamped into `[0, 1]`); with no `OVERALL:`
match the overall is the arithmetic mean of the dimension scores, and
`0.0` when the dimension list is empty as well.  The response
`"nothing"` parses to zero dimensions and overall `0.0`, and dimensions
scoring `0.8` and `0.6` with no `OVERALL:` line average to exactly
`0.7`. -/
theorem parse_overall_resolution :
    (∀ (s : String) (dims : List ReviewDimension) (tok : String) (q : ℚ),
      findOverallToken (s.data.length + 1) s.data = some tok →
      pyFloatOfString tok = some q →
      parseOverall s dims = clamp01 q) ∧
    (∀ (s : String) (dims : List ReviewDimension),
      findOverallToken (s.data.length + 1) s.data = none → dims ≠ [] →
      parseOverall s dims = (dims.map ReviewDimension.score).sum / (dims.length : ℚ)) ∧
    (∀ s : String, findOverallToken (s.data.length + 1) s.data = none →
      parseOverall s [] = 0) ∧
    (parseDimensions "nothing" = .ok [] ∧ parseOverall "nothing" [] = 0) ∧
    parseOverall "no overall here" [⟨"a", 0.8, ""⟩, ⟨"b", 0.6, ""⟩] = 0.7 := by
  refine ⟨fun s dims tok q ht hq => ?_, fun s dims ht hd => ?_, fun s ht => ?_,
    ⟨by decide, by decide⟩, by decide⟩
  · simp only [parseOverall, ht, hq]
    rfl
  · simp only [parseOverall, ht]
    rw [if_neg (by simpa [List.isEmpty_iff] using hd)]
  · simp only [parseOverall, ht, List.isEmpty_nil, if_true]

/-- Witness for C6 on the repository's sample review response. -/
theorem parse_overall_resolution_witness :
    findOverallToken
        ("DIMENSION: a\nSCORE: 0.5\nJUSTIFICATION: j\nOVERALL: 0.82\n".data.length + 1)
        "DIMENSION: a\nSCORE: 0.5\nJUSTIFICATION: j\nOVERALL: 0.82\n".data = some "0.82" ∧
    pyFloatOfString "0.82" = some (41/50) ∧
    parseOverall "DIMENSION: a\nSCORE: 0.5\nJUSTIFICATION: j\nOVERALL: 0.82\n" []
      = clamp01 (41/50) :=
  ⟨by decide, by decide,
   parse_overall_resolution.1 "DIMENSION: a\nSCORE: 0.5\nJUSTIFICATION: j\nOVERALL: 0.82\n"
     [] "0.82" (41/50) (by decide) (by decide)⟩

end ImpactEngine

namespace ImpactEngine

/-! ## Adapter-level helper lemmas -/

theorem exBind_ok {ε α β : Type} (a : α) (f : α → Except ε β) :
    (Except.ok a >>= f) = f a := rfl

theorem exBind_err {ε α β : Type} (e : ε) (f : α → Except ε β) :
    ((Except.error e : Except ε α) >>= f) = Except.error e := rfl

/-- An unknown strategy makes the router raise `ValueError`. -/
theorem route_unknown {m : Manifest} (hs : m.evaluate_strategy ∉ KNOWN_STRATEGIES) :
    route m = .error .valueError := by
  rw [route, if_pos]
  simpa using hs

/-- An unknown strategy makes `Evaluate.execute` fail with `ValueError`
for every job-directory content, override, and environment: the failure
happens before `load_scorer_event` (no `impact_results.json` is needed)
and, the result being an error, nothing is written. -/
theorem execute_unknown_strategy {fs : FS} {dirName : String} {m : Manifest}
    (cost : Option JValue) (env : ReviewEnv)
    (hm : load_manifest fs dirName = .ok m)
    (hs : m.evaluate_strategy ∉ KNOWN_STRATEGIES) :
    execute fs dirName cost env = .error .valueError := by
  simp only [execute, hm, exBind_ok, route_unknown hs, exBind_err]

/-- Loading a manifest whose file is a JSON object document reduces to
`manifestOfDict`. -/
theorem load_manifest_eq_dict {fs : FS} {dirName s : String}
    {fields : List (String × JValue)}
    (hfs : fs MANIFEST_FILENAME = some (.text s))
    (hjson : jsonLoads s = some (.obj fields)) :
    load_manifest fs dirName = manifestOfDict dirName fields := by
  simp only [load_manifest, hfs, fileText, hjson, manifestOfDoc]

/-- Projections of a successfully assembled manifest: the strategy
default, the files map, the model type, and the initiative-id
fallback. -/
theorem manifestOfDict_ok {dirName : String} {fields : List (String × JValue)}
    {m : Manifest} (hm : manifestOfDict dirName fields = .ok m) :
    manifestFiles fields = .ok m.files ∧
    m.evaluate_strategy = jText (jGetD fields "evaluate_strategy" (.str "agentic")) ∧
    m.model_type = jText (jGetD fields "model_type" .null) := by
  rw [manifestOfDict] at hm
  split at hm
  · exact Except.noConfusion hm
  · revert hm
    cases hmf : manifestFiles fields with
    | error e => intro hm; exact Except.noConfusion hm
    | ok files =>
      intro hm
      cases hm
      exact ⟨by simp [manifestMk, hmf], rfl, rfl⟩

end ImpactEngine

namespace ImpactEngine

/-- **C4.**  For every job directory whose manifest loads but declares a
strategy outside `{"score", "review"}`, `Evaluate.execute` raises
`ValueError`.  The directory contents other than `manifest.json` are
arbitrary — in particular `impact_results.json` need not exist, showing
the routing check precedes `load_scorer_event` — and the error result
carries no directory state: in this model every write is reached only
through an `ok` result, so the job directory is unchanged. -/
theorem execute_fail_fast_unknown_strategy (fs : FS) (dirName : String)
    (cost : Option JValue) (env : ReviewEnv) (m : Manifest)
    (hm : load_manifest fs dirName = .ok m)
    (hs : m.evaluate_strategy ∉ KNOWN_STRATEGIES) :
    execute fs dirName cost env = .error .valueError :=
  execute_unknown_strategy cost env hm hs

/-- A job directory holding only a manifest with strategy `"bogus"`. -/
def bogusStrategyDir : FS := fun n =>
  if n = "manifest.json" then
    some (.text "\x7b\"schema_version\": \"1.0\", \"model_type\": \"experiment\", \"evaluate_strategy\": \"bogus\"\x7d")
  else none

/-- Witness for C4: the `"bogus"`-strategy directory (with no
`impact_results.json` at all) fails with `ValueError`. -/
theorem execute_fail_fast_unknown_strategy_witness :
    load_manifest bogusStrategyDir "job-001" = .ok
      { schema_version := "1.0", model_type := "experiment",
        initiative_id := "job-001", evaluate_strategy := "bogus" } ∧
    "bogus" ∉ KNOWN_STRATEGIES ∧
    execute bogusStrategyDir "job-001" none
      ⟨fun _ => .error .fileNotFound, fun _ => .ok "", .ok ("stub", ""),
        fun _ _ _ _ => .ok "", ""⟩
      = .error .valueError :=
  ⟨by decide, by decide,
   execute_fail_fast_unknown_strategy bogusStrategyDir "job-001" none
     ⟨fun _ => .error .fileNotFound, fun _ => .ok "", .ok ("stub", ""),
       fun _ _ _ _ => .ok "", ""⟩
     { schema_version := "1.0", model_type := "experiment",
       initiative_id := "job-001", evaluate_strategy := "bogus" }
     (by decide) (by decide)⟩

/-- **C10.**  A manifest document that omits `evaluate_strategy` loads
with the default `"agentic"`; since `"agentic"` is not a known routing
strategy, every subsequent `Evaluate.execute` on that directory raises
`ValueError` — the omitted-strategy default can never complete an
evaluation. -/
theorem omitted_strategy_defaults_agentic_never_completes
    (fs : FS) (dirName s : String) (fields : List (String × JValue)) (m : Manifest)
    (hfs : fs MANIFEST_FILENAME = some (.text s))
    (hjson : jsonLoads s = some (.obj fields))
    (hnone : jLookup fields "evaluate_strategy" = none)
    (hm : load_manifest fs dirName = .ok m) :
    m.evaluate_strategy = "agentic" ∧
    ∀ (cost : Option JValue) (env : ReviewEnv),
      execute fs dirName cost env = .error .valueError := by
  have hdict : manifestOfDict dirName fields = .ok m :=
    (load_manifest_eq_dict hfs hjson).symm.trans hm
  obtain ⟨-, hstrat, -⟩ := manifestOfDict_ok hdict
  have hag : m.evaluate_strategy = "agentic" := by
    rw [hstrat, jGetD, hnone]
    rfl
  refine ⟨hag, fun cost env => execute_unknown_strategy cost env hm ?_⟩
  rw [hag]
  decide

/-- A job directory whose manifest omits `evaluate_strategy`. -/
def omittedStrategyDir : FS := fun n =>
  if n = "manifest.json" then
    some (.text "\x7b\"schema_version\": \"1.0\", \"model_type\": \"experiment\"\x7d")
  else none

/-- Witness for C10 on the omitted-strategy directory. -/
theorem omitted_strategy_defaults_agentic_never_completes_witness :
    omittedStrategyDir MANIFEST_FILENAME
      = some (.text "\x7b\"schema_version\": \"1.0\", \"model_type\": \"experiment\"\x7d") ∧
    jsonLoads "\x7b\"schema_version\": \"1.0\", \"model_type\": \"experiment\"\x7d"
      = some (.obj [("schema_version", .str "1.0"), ("model_type", .str "experiment")]) ∧
    jLookup [("schema_version", .str "1.0"), ("model_type", .str "experiment")]
      "evaluate_strategy" = none ∧
    load_manifest omittedStrategyDir "job-001" = .ok
      { schema_version := "1.0", model_type := "experiment",
        initiative_id := "job-001", evaluate_strategy := "agentic" } ∧
    ({ schema_version := "1.0", model_type := "experiment",
       initiative_id := "job-001", evaluate_strategy := "agentic" } : Manifest).evaluate_strategy
      = "agentic" ∧
    execute omittedStrategyDir "job-001" none
      ⟨fun _ => .error .fileNotFound, fun _ => .ok "", .ok ("stub", ""),
        fun _ _ _ _ => .ok "", ""⟩
      = .error .valueError := by
  refine ⟨rfl, rfl, rfl, by decide, ?_, ?_⟩
  · exact (omitted_strategy_defaults_agentic_never_completes omittedStrategyDir "job-001"
      "\x7b\"schema_version\": \"1.0\", \"model_type\": \"experiment\"\x7d"
      [("schema_version", .str "1.0"), ("model_type", .str "experiment")]
      { schema_version := "1.0", model_type := "experiment",
        initiative_id := "job-001", evaluate_strategy := "agentic" }
      rfl rfl rfl (by decide)).1
  · exact (omitted_strategy_defaults_agentic_never_completes omittedStrategyDir "job-001"
      "\x7b\"schema_version\": \"1.0\", \"model_type\": \"experiment\"\x7d"
      [("schema_version", .str "1.0"), ("model_type", .str "experiment")]
      { schema_version := "1.0", model_type := "experiment",
        initiative_id := "job-001", evaluate_strategy := "agentic" }
      rfl rfl rfl (by decide)).2 none
      ⟨fun _ => .error .fileNotFound, fun _ => .ok "", .ok ("stub", ""),
        fun _ _ _ _ => .ok "", ""⟩

end ImpactEngine

namespace ImpactEngine

/-- The directory after a run: the written state on success, the
original directory on error (in this model every write is reached only
through an `ok` result). -/
def writtenFS (r : Except PyErr (FS × EvaluateResult)) (fs : FS) : FS :=
  match r with
  | .ok p => p.1
  | .error _ => fs

/-- **C8.**  On every successful `Evaluate.execute` run (either
strategy), only `score_result.json`, `review_result.json` and
`evaluate_result.json` can differ from the pre-call directory; in
particular `manifest.json` is identical to its pre-call state. -/
theorem execute_manifest_immutable (fs : FS) (dirName : String)
    (cost : Option JValue) (env : ReviewEnv)
    (h : (execute fs dirName cost env).isOk = true) :
    (∀ name : String, name ≠ SCORE_RESULT_FILENAME → name ≠ REVIEW_RESULT_FILENAME →
      name ≠ EVALUATE_RESULT_FILENAME →
      writtenFS (execute fs dirName cost env) fs name = fs name) ∧
    writtenFS (execute fs dirName cost env) fs MANIFEST_FILENAME
      = fs MANIFEST_FILENAME := by
  have main : ∀ name : String, name ≠ SCORE_RESULT_FILENAME →
      name ≠ REVIEW_RESULT_FILENAME → name ≠ EVALUATE_RESULT_FILENAME →
      writtenFS (execute fs dirName cost env) fs name = fs name := by
    intro name h1 h2 h3
    cases hm : load_manifest fs dirName with
    | error e => simp [execute, hm, exBind_err, Except.isOk, Except.toBool] at h
    | ok m =>
    cases hr : route m with
    | error e => simp [execute, hm, hr, exBind_ok, exBind_err, Except.isOk, Except.toBool] at h
    | ok sr =>
    cases hev : load_scorer_event m fs dirName (costOverrides cost) with
    | error e => simp [execute, hm, hr, hev, exBind_ok, exBind_err, Except.isOk, Except.toBool] at h
    | ok ev =>
    by_cases hst : sr.1 = "score"
    · have hex : execute fs dirName cost env = .ok
          (fsWrite (fsWrite fs SCORE_RESULT_FILENAME
              (.scoreFile (score_confidence (evInitiative ev) sr.2.confidence_range)))
            EVALUATE_RESULT_FILENAME
            (.evalFile
              { initiative_id := evInitiative ev
                confidence := (score_confidence (evInitiative ev) sr.2.confidence_range).confidence
                confidence_range := sr.2.confidence_range
                strategy := sr.1
                report := .text ("Confidence drawn uniformly between " ++
                  fmt2 sr.2.confidence_range.1 ++ " and " ++ fmt2 sr.2.confidence_range.2) }),
            { initiative_id := evInitiative ev
              confidence := (score_confidence (evInitiative ev) sr.2.confidence_range).confidence
              confidence_range := sr.2.confidence_range
              strategy := sr.1
              report := .text ("Confidence drawn uniformly between " ++
                fmt2 sr.2.confidence_range.1 ++ " and " ++ fmt2 sr.2.confidence_range.2) }) := by
        simp [execute, hm, hr, hev, exBind_ok, hst]
      rw [hex]
      simp [writtenFS, fsWrite, h1, h3]
    · cases hcr : compute_review fs dirName env with
      | error e =>
        have : execute fs dirName cost env = .error e := by
          simp [execute, review_api, hm, hr, hev, hcr, exBind_ok, exBind_err, hst]
        rw [this] at h
        simp [Except.isOk, Except.toBool] at h
      | ok rr =>
        have hex : execute fs dirName cost env = .ok
            (fsWrite (fsWrite fs REVIEW_RESULT_FILENAME (.reviewFile rr))
              EVALUATE_RESULT_FILENAME
              (.evalFile
                { initiative_id := evInitiative ev
                  confidence := rr.overall_score
                  confidence_range := sr.2.confidence_range
                  strategy := sr.1
                  report := .review rr }),
              { initiative_id := evInitiative ev
                confidence := rr.overall_score
                confidence_range := sr.2.confidence_range
                strategy := sr.1
                report := .review rr }) := by
          simp [execute, review_api, hm, hr, hev, hcr, exBind_ok, hst]
        rw [hex]
        simp [writtenFS, fsWrite, h2, h3]
  exact ⟨main, main MANIFEST_FILENAME (by decide) (by decide) (by decide)⟩

end ImpactEngine

namespace ImpactEngine

/-- A complete review-strategy job directory: manifest (strategy
`"review"`, one listed file) plus the upstream results file. -/
def reviewJobDir : FS := fun n =>
  if n = "manifest.json" then
    some (.text "\x7b\"schema_version\": \"1.0\", \"model_type\": \"experiment\", \"evaluate_strategy\": \"review\", \"files\": \x7b\"results\": \x7b\"path\": \"impact_results.json\", \"format\": \"json\"\x7d\x7d\x7d")
  else if n = "impact_results.json" then
    some (.text "\x7b\"ci_upper\": 15.0, \"effect_estimate\": 10.0, \"ci_lower\": 5.0, \"cost_to_scale\": 100.0, \"sample_size\": 50\x7d")
  else none

/-- A stub environment: prompt and knowledge resolve, the backend
returns the unparseable completion `"nothing"`. -/
def stubEnv : ReviewEnv :=
  ⟨fun _ => .ok ⟨"p", "1.0", "", [], "", ""⟩, fun _ => .ok "", .ok ("stub", "m"),
   fun _ _ _ _ => .ok "nothing", "2025-01-01T00:00:00+00:00"⟩

/-- Witness for C8: a successful review-strategy run leaves
`manifest.json` untouched. -/
theorem execute_manifest_immutable_witness :
    (execute reviewJobDir "job-001" none stubEnv).isOk = true ∧
    writtenFS (execute reviewJobDir "job-001" none stubEnv) reviewJobDir MANIFEST_FILENAME
      = reviewJobDir MANIFEST_FILENAME :=
  ⟨by decide, (execute_manifest_immutable reviewJobDir "job-001" none stubEnv (by decide)).2⟩

/-! ## C9: artifact loading -/

theorem loadArtifactLoop_parts (fs : FS) :
    ∀ (files : List (String × FileEntry)) (parts : List String) (ss : ℤ),
      (loadArtifactLoop fs files parts ss).1 = parts.reverse ++
        files.filterMap (fun p => (fs p.2.path).map
          (fun fd => "=== " ++ p.1 ++ " (" ++ p.2.format ++ ") ===\n" ++ fileText fd))
  | [], parts, ss => by simp [loadArtifactLoop]
  | (name, e) :: rest, parts, ss => by
    rw [loadArtifactLoop]
    cases hfe : fs e.path with
    | none =>
      simp only [List.filterMap_cons, hfe, Option.map_none']
      exact loadArtifactLoop_parts fs rest parts ss
    | some fd =>
      simp only [List.filterMap_cons, hfe, Option.map_some']
      rw [loadArtifactLoop_parts fs rest _ _]
      simp

/-- The empty-file-map branch of `load_artifact`. -/
theorem load_artifact_empty {m : Manifest} (fs : FS) (dirName : String)
    (h : m.files = []) : load_artifact m fs dirName = .error .valueError := by
  rw [load_artifact, if_pos]
  rw [h]
  rfl

/-- The non-empty branch of `load_artifact`: headed concatenation of
every existing listed file. -/
theorem load_artifact_nonempty {m : Manifest} (fs : FS) (dirName : String)
    (h : m.files ≠ []) :
    load_artifact m fs dirName = .ok
      { initiative_id := if m.initiative_id = "" then dirName else m.initiative_id
        artifact_text := String.intercalate "\n\n" (m.files.filterMap
          (fun p => (fs p.2.path).map
            (fun fd => "=== " ++ p.1 ++ " (" ++ p.2.format ++ ") ===\n" ++ fileText fd)))
        model_type := m.model_type
        sample_size := (loadArtifactLoop fs m.files [] 0).2 } := by
  rw [load_artifact, if_neg (by simpa [List.isEmpty_iff] using h)]
  simp only [loadArtifactLoop_parts fs m.files [] 0, List.reverse_nil, List.nil_append]

/-- **C9.**  The default `load_artifact` (shared verbatim by both
registered reviewers) raises `ValueError` on a manifest with an empty
file map — even though such a manifest loads successfully when its
document lacks a `files` key — and on a non-empty file map returns a
payload whose `artifact_text` concatenates each existing file's content
prefixed with its `=== name (format) ===` header, joined by blank
lines. -/
theorem load_artifact_contract :
    (∀ (m : Manifest) (fs : FS) (dirName : String), m.files = [] →
      load_artifact m fs dirName = .error .valueError) ∧
    (∀ (m : Manifest) (fs : FS) (dirName : String), m.files ≠ [] →
      load_artifact m fs dirName = .ok
        { initiative_id := if m.initiative_id = "" then dirName else m.initiative_id
          artifact_text := String.intercalate "\n\n" (m.files.filterMap
            (fun p => (fs p.2.path).map
              (fun fd => "=== " ++ p.1 ++ " (" ++ p.2.format ++ ") ===\n" ++ fileText fd)))
          model_type := m.model_type
          sample_size := (loadArtifactLoop fs m.files [] 0).2 }) ∧
    (∀ (fs : FS) (dirName s : String) (fields : List (String × JValue)) (m : Manifest),
      fs MANIFEST_FILENAME = some (.text s) →
      jsonLoads s = some (.obj fields) →
      jLookup fields "files" = none →
      load_manifest fs dirName = .ok m →
      m.files = [] ∧ load_artifact m fs dirName = .error .valueError) := by
  refine ⟨fun m fs d h => load_artifact_empty fs d h,
    fun m fs d h => load_artifact_nonempty fs d h,
    fun fs d s fields m hfs hjson hnone hm => ?_⟩
  have hdict : manifestOfDict d fields = .ok m :=
    (load_manifest_eq_dict hfs hjson).symm.trans hm
  obtain ⟨hfiles, -, -⟩ := manifestOfDict_ok hdict
  rw [manifestFiles, hnone] at hfiles
  have hempty : m.files = [] := (Except.ok.inj hfiles).symm
  exact ⟨hempty, load_artifact_empty fs d hempty⟩

/-- A one-file job directory for the C9 witness. -/
def artifactDir : FS := fun n =>
  if n = "study.txt" then some (.text "A careful RCT.") else none

/-- Witness for C9: the non-empty branch on a concrete one-file
manifest. -/
theorem load_artifact_contract_witness :
    ([("study", ⟨"study.txt", "text"⟩)] : List (String × FileEntry)) ≠ [] ∧
    load_artifact
        { schema_version := "1.0", model_type := "experiment",
          files := [("study", ⟨"study.txt", "text"⟩)], initiative_id := "init-1" }
        artifactDir "job-001"
      = .ok
        { initiative_id := "init-1"
          artifact_text := String.intercalate "\n\n"
            (([("study", (⟨"study.txt", "text"⟩ : FileEntry))].filterMap
              (fun p => (artifactDir p.2.path).map
                (fun fd => "=== " ++ p.1 ++ " (" ++ p.2.format ++ ") ===\n" ++ fileText fd))))
          model_type := "experiment"
          sample_size := (loadArtifactLoop artifactDir
            [("study", ⟨"study.txt", "text"⟩)] [] 0).2 } :=
  ⟨by decide,
   load_artifact_contract.2.1
     { schema_version := "1.0", model_type := "experiment",
       files := [("study", ⟨"study.txt", "text"⟩)], initiative_id := "init-1" }
     artifactDir "job-001" (by decide)⟩

end ImpactEngine

namespace ImpactEngine

/-! ## C7: scorer event building -/

theorem jLookup_setKey_self : ∀ (l : List (String × JValue)) (k : String) (v : JValue),
    jLookup (setKey l k v) k = some v
  | [], k, v => by simp [setKey, jLookup]
  | (k0, v0) :: rest, k, v => by
    by_cases h : k0 = k
    · simp [setKey, h, jLookup]
    · simp only [setKey, if_neg h, jLookup]
      exact jLookup_setKey_self rest k v

theorem jLookup_setKey_other : ∀ (l : List (String × JValue)) (k k' : String) (v : JValue),
    k' ≠ k → jLookup (setKey l k v) k' = jLookup l k'
  | [], k, k', v, h => by
    simp only [setKey, jLookup]
    rw [if_neg (fun he => h he.symm)]
  | (k0, v0) :: rest, k, k', v, h => by
    by_cases h0 : k0 = k
    · simp only [setKey, if_pos h0, jLookup]
      rw [if_neg (fun he => h (h0.symm.trans he).symm),
        if_neg (fun he => h (h0.symm.trans he).symm)]
    · simp only [setKey, if_neg h0, jLookup]
      by_cases h1 : k0 = k'
      · rw [if_pos h1, if_pos h1]
      · rw [if_neg h1, if_neg h1]
        exact jLookup_setKey_other rest k k' v h

theorem foldl_setKey_preserve :
    ∀ (ov : List (String × JValue)) (e : List (String × JValue)) (k : String),
      k ∉ ov.map Prod.fst →
      jLookup (ov.foldl (fun e kv => setKey e kv.1 kv.2) e) k = jLookup e k
  | [], _, _, _ => rfl
  | (k0, v0) :: rest, e, k, h => by
    have hk : k ≠ k0 ∧ k ∉ rest.map Prod.fst := by
      simpa using h
    rw [List.foldl_cons, foldl_setKey_preserve rest _ k hk.2]
    exact jLookup_setKey_other e k0 k v0 hk.1

theorem foldl_setKey_wins :
    ∀ (ov : List (String × JValue)) (e : List (String × JValue)) (k : String) (v : JValue),
      (ov.map Prod.fst).Nodup → (k, v) ∈ ov →
      jLookup (ov.foldl (fun e kv => setKey e kv.1 kv.2) e) k = some v
  | [], _, _, _, _, hmem => absurd hmem (List.not_mem_nil _)
  | (k0, v0) :: rest, e, k, v, hnd, hmem => by
    have hnd' : k0 ∉ rest.map Prod.fst ∧ (rest.map Prod.fst).Nodup := by
      simpa using hnd
    rw [List.foldl_cons]
    rcases List.mem_cons.1 hmem with heq | hmem'
    · injection heq with hk hv
      subst hk
      subst hv
      rw [foldl_setKey_preserve rest _ k hnd'.1]
      exact jLookup_setKey_self e k v
    · exact foldl_setKey_wins rest _ k v hnd'.2 hmem'

/-- Shape of a successfully built scorer event: the five conversions
succeeded and the result is the ordered event record with the overrides
folded in last. -/
theorem scorerEventOfDict_ok_shape {m : Manifest} {dirName : String}
    {ov data ev : List (String × JValue)}
    (hok : scorerEventOfDict m dirName ov data = .ok ev) :
    ∃ (ciU eff ciL cts : ℚ) (ss : ℤ),
      pyFloatOfJValue (jGetD data "ci_upper" (.num 0)) = .ok ciU ∧
      pyFloatOfJValue (jGetD data "effect_estimate" (.num 0)) = .ok eff ∧
      pyFloatOfJValue (jGetD data "ci_lower" (.num 0)) = .ok ciL ∧
      pyFloatOfJValue (jGetD data "cost_to_scale" (.num 0)) = .ok cts ∧
      pyIntOfJValue (jGetD data "sample_size" (.num 0)) = .ok ss ∧
      ev = ov.foldl (fun e kv => setKey e kv.1 kv.2)
        [("initiative_id", .str (if m.initiative_id = "" then dirName else m.initiative_id)),
         ("model_type", .str m.model_type),
         ("ci_upper", .num ciU),
         ("effect_estimate", .num eff),
         ("ci_lower", .num ciL),
         ("cost_to_scale", .num cts),
         ("sample_size", .num (ss : ℚ))] := by
  rw [scorerEventOfDict] at hok
  cases h1 : pyFloatOfJValue (jGetD data "ci_upper" (.num 0)) with
  | error e => rw [h1, exBind_err] at hok; exact Except.noConfusion hok
  | ok ciU =>
  rw [h1, exBind_ok] at hok
  cases h2 : pyFloatOfJValue (jGetD data "effect_estimate" (.num 0)) with
  | error e => rw [h2, exBind_err] at hok; exact Except.noConfusion hok
  | ok eff =>
  rw [h2, exBind_ok] at hok
  cases h3 : pyFloatOfJValue (jGetD data "ci_lower" (.num 0)) with
  | error e => rw [h3, exBind_err] at hok; exact Except.noConfusion hok
  | ok ciL =>
  rw [h3, exBind_ok] at hok
  cases h4 : pyFloatOfJValue (jGetD data "cost_to_scale" (.num 0)) with
  | error e => rw [h4, exBind_err] at hok; exact Except.noConfusion hok
  | ok cts =>
  rw [h4, exBind_ok] at hok
  cases h5 : pyIntOfJValue (jGetD data "sample_size" (.num 0)) with
  | error e => rw [h5, exBind_err] at hok; exact Except.noConfusion hok
  | ok ss =>
  rw [h5, exBind_ok] at hok
  cases hok
  exact ⟨ciU, eff, ciL, cts, ss, rfl, rfl, rfl, rfl, rfl, rfl⟩

end ImpactEngine

namespace ImpactEngine

/-- **C7.**  `load_scorer_event` fails with `FileNotFoundError` when
`impact_results.json` is absent; otherwise every numeric field missing
from the decoded results object defaults to `0.0` (and `sample_size` to
`0`), and overrides are applied after the file-derived values, so every
key present in an override map (with distinct keys, as a Python dict
has) ends up holding the override value. -/
theorem load_scorer_event_contract :
    (∀ (m : Manifest) (fs : FS) (dirName : String) (ov : List (String × JValue)),
      fs "impact_results.json" = none →
      load_scorer_event m fs dirName ov = .error .fileNotFound) ∧
    (∀ (m : Manifest) (fs : FS) (dirName s : String)
       (data ev : List (String × JValue)),
      fs "impact_results.json" = some (.text s) →
      jsonLoads s = some (.obj data) →
      load_scorer_event m fs dirName [] = .ok ev →
      ((jLookup data "ci_upper" = none → jLookup ev "ci_upper" = some (.num 0)) ∧
       (jLookup data "effect_estimate" = none →
         jLookup ev "effect_estimate" = some (.num 0)) ∧
       (jLookup data "ci_lower" = none → jLookup ev "ci_lower" = some (.num 0)) ∧
       (jLookup data "cost_to_scale" = none →
         jLookup ev "cost_to_scale" = some (.num 0)) ∧
       (jLookup data "sample_size" = none →
         jLookup ev "sample_size" = some (.num 0)))) ∧
    (∀ (m : Manifest) (fs : FS) (dirName : String)
       (ov ev : List (String × JValue)) (k : String) (v : JValue),
      (ov.map Prod.fst).Nodup → (k, v) ∈ ov →
      load_scorer_event m fs dirName ov = .ok ev →
      jLookup ev k = some v) := by
  refine ⟨fun m fs d ov h => by simp [load_scorer_event, h], ?_, ?_⟩
  · intro m fs d s data ev hfs hjson hok
    have hdict : scorerEventOfDict m d [] data = .ok ev := by
      rw [load_scorer_event, hfs] at hok
      simp only [fileText] at hok
      rw [hjson] at hok
      exact hok
    obtain ⟨ciU, eff, ciL, cts, ss, h1, h2, h3, h4, h5, hev⟩ :=
      scorerEventOfDict_ok_shape hdict
    rw [List.foldl_nil] at hev
    subst hev
    refine ⟨fun hm => ?_, fun hm => ?_, fun hm => ?_, fun hm => ?_, fun hm => ?_⟩
    · rw [jGetD, hm] at h1
      cases h1
      rfl
    · rw [jGetD, hm] at h2
      cases h2
      rfl
    · rw [jGetD, hm] at h3
      cases h3
      rfl
    · rw [jGetD, hm] at h4
      cases h4
      rfl
    · rw [jGetD, hm] at h5
      cases h5
      rfl
  · intro m fs d ov ev k v hnd hmem hok
    cases hf : fs "impact_results.json" with
    | none =>
      simp only [load_scorer_event, hf] at hok
      exact Except.noConfusion hok
    | some fd =>
      simp only [load_scorer_event, hf] at hok
      revert hok
      cases hj : jsonLoads (fileText fd) with
      | none => intro hok; exact Except.noConfusion hok
      | some jv =>
        cases jv with
        | obj data =>
          intro hok
          obtain ⟨_, _, _, _, _, _, _, _, _, _, hev⟩ :=
            scorerEventOfDict_ok_shape hok
          subst hev
          exact foldl_setKey_wins ov _ k v hnd hmem
        | null => intro hok; exact Except.noConfusion hok
        | bool b => intro hok; exact Except.noConfusion hok
        | num q => intro hok; exact Except.noConfusion hok
        | str s2 => intro hok; exact Except.noConfusion hok
        | arr l => intro hok; exact Except.noConfusion hok

/-- A directory holding only a partial results file. -/
def partialResultsDir : FS := fun n =>
  if n = "impact_results.json" then some (.text "\x7b\"cost_to_scale\": 7.0\x7d") else none

/-- Witness for C7: the missing-file error on an empty directory, and a
`cost_to_scale` override beating the file's value `7.0` on a concrete
partial results file. -/
theorem load_scorer_event_contract_witness :
    load_scorer_event { schema_version := "1.0", model_type := "experiment" }
      (fun _ => none) "job-001" [] = .error .fileNotFound ∧
    jLookup
      [("initiative_id", .str "job-001"), ("model_type", .str "experiment"),
       ("ci_upper", .num 0), ("effect_estimate", .num 0), ("ci_lower", .num 0),
       ("cost_to_scale", .num 42), ("sample_size", .num 0)] "cost_to_scale"
      = some (.num 42) :=
  ⟨load_scorer_event_contract.1 { schema_version := "1.0", model_type := "experiment" }
     (fun _ => none) "job-001" [] rfl,
   load_scorer_event_contract.2.2
     { schema_version := "1.0", model_type := "experiment" }
     partialResultsDir "job-001" [("cost_to_scale", .num 42)]
     [("initiative_id", .str "job-001"), ("model_type", .str "experiment"),
      ("ci_upper", .num 0), ("effect_estimate", .num 0), ("ci_lower", .num 0),
      ("cost_to_scale", .num 42), ("sample_size", .num 0)]
     "cost_to_scale" (.num 42) (by simp) (List.mem_singleton.2 rfl) rfl⟩

end ImpactEngine
